import Mathlib

/-!
The socket dispatch engine of go-chrome: a shallow embedding of `tot/socket/socket.socketer.go` and
`socket/socket.conner.go`.

* Go's `int` is modelled as an `Int` kept inside the 64-bit two's complement
  range by `wrapInt` wherever the source does arithmetic on it.
* `error` values are modelled by their text, `nil` being `none`.
* Calls that leave the socket (the channel factory, reads, writes and closes
  on the channel, `Respond` on a command, `Handle` on a listener) are recorded
  in order in a trace of `Effect`s; what the outside answers is given by an
  `Env`, which may depend on everything that happened before.
* A method call on a nil channel, and a field read through a nil
  `response`, is a run-time panic, modelled as `Fault.nilDeref`; a panic in
  the goroutine of a listener is `Fault.handlerPanic`.
* Log statements are not modelled.
-/

namespace GoChrome

/-! ## Machine integers -/

/-- Go's `int` on a 64-bit target: the representative of `x` modulo `2^64`
in the range `-2^63 ≤ · < 2^63`. -/
def wrapInt (x : Int) : Int := (x + 2 ^ 63) % 2 ^ 64 - 2 ^ 63

/-! ## Wire types -/

/-- The `error` object of an inbound envelope (`Error{Code, Data, Message}`). -/
structure Error where
  Code : Int
  Data : String
  Message : String
deriving DecidableEq, Repr

/-- The inbound envelope (`Response`), a response or an event. -/
structure Response where
  Error : Option Error
  ID : Int
  Method : String
  Params : String
  Result : String
deriving DecidableEq, Repr

/-- The zero value `&Response{}`. -/
def Response.zero : Response :=
  { Error := none, ID := 0, Method := "", Params := "", Result := "" }

/-- The outgoing wire payload (`Payload{ID, Method, Params}`). -/
structure Payload where
  ID : Int
  Method : String
  Params : String
deriving DecidableEq, Repr

/-! ## Collaborators of the socket -/

/-- A value behind the `Commander` interface, as far as the socket uses it:
what `ID()`, `Method()`, `Params()` and `Response()` return. `Response` is
the identity of the command's result channel. -/
structure Commander where
  ID : Int
  Method : String
  Params : String
  Response : Nat
deriving DecidableEq, Repr

/-- A value behind the `EventHandler` interface: what `Name()` returns and
the identity of the listener. -/
structure EventHandler where
  Name : String
  ref : Nat
deriving DecidableEq, Repr

/-- Identity of an open channel (`WebSocketer`). -/
abbrev Conn := Nat

/-- What the socket does to the outside, in the order it does it. -/
inductive Effect where
  | dial (url : String)
  | connWrite (conn : Conn) (payload : Payload)
  | connRead (conn : Conn)
  | connClose (conn : Conn)
  | respond (command : Commander) (response : Response)
  | handle (handler : EventHandler) (response : Response)
deriving DecidableEq, Repr

/-- Modelled from the spec: the pending-command registry (`CommandMapper`,
built by `NewCommandMap`), whose implementation is not among the sources.
"`register(command)` stores the command keyed by its correlation id"; the
socket uses `Get(id)`, `Set(command)` and `Delete(id)`. The mapping is kept
as the list of stored commands, each keyed by its own `ID`. -/
abbrev CommandMap := List Commander

/-- Modelled from the spec: `NewCommandMap()`, the empty registry. -/
def NewCommandMap : CommandMap := []

/-- Modelled from the spec: `Get(id)`, the command stored under `id`;
`none` stands for the non-nil error returned when there is none. -/
def CommandMap.Get (m : CommandMap) (id : Int) : Option Commander :=
  m.find? (fun c => c.ID == id)

/-- Modelled from the spec: `Delete(id)` removes the entry stored under
`id`. -/
def CommandMap.Delete (m : CommandMap) (id : Int) : CommandMap :=
  m.filter (fun c => c.ID != id)

/-- Modelled from the spec: `Set(command)` stores the command under its
own id, replacing what was stored there. -/
def CommandMap.Set (m : CommandMap) (command : Commander) : CommandMap :=
  command :: m.filter (fun c => c.ID != command.ID)

/-- Modelled from the spec: the event-handler registry
(`EventHandlerMapper`, built by `NewEventHandlerMap`), "a mapping from event
method name to an ordered collection of registered listeners". -/
abbrev EventHandlerMap := List (String × List EventHandler)

/-- Modelled from the spec: `NewEventHandlerMap()`, the empty registry. -/
def NewEventHandlerMap : EventHandlerMap := []

/-- Modelled from the spec: `Get(name)`, the collection registered for a
method name; `none` stands for the non-nil error when there is none. -/
def EventHandlerMap.Get (m : EventHandlerMap) (name : String) :
    Option (List EventHandler) :=
  (m.find? (fun e => e.1 == name)).map Prod.snd

/-- Modelled from the spec: `Set(name, handlers)` stores the collection for
a method name. -/
def EventHandlerMap.Set (m : EventHandlerMap) (name : String)
    (handlers : List EventHandler) : EventHandlerMap :=
  (name, handlers) :: m.filter (fun e => e.1 != name)

/-- Modelled from the spec: `Add(handler)` "appends to the ordered
collection for the handler's method name, creating the collection if
absent". -/
def EventHandlerMap.Add (m : EventHandlerMap) (handler : EventHandler) :
    EventHandlerMap :=
  match m.Get handler.Name with
  | some handlers => m.Set handler.Name (handlers ++ [handler])
  | none => m.Set handler.Name [handler]

/-! ## The socket -/

/-- The mutable fields of `Socket` (the mutexes and the per-domain protocol
pointers carry no state of their own). -/
structure Socket where
  commands : CommandMap
  commandID : Int
  conn : Option Conn
  connected : Bool
  handlers : EventHandlerMap
  url : String
  socketID : Int
  stopListening : Bool
deriving DecidableEq, Repr

/-- A socket together with the trace of what it did so far. -/
structure World where
  sock : Socket
  trace : List Effect
deriving DecidableEq, Repr

/-- The outside world: the channel factory stored in `Socket.newSocket`
and the three operations of a channel. Each answer may depend on the trace
so far. A read answers with what it leaves behind the pointer `response`
handed to it, and its error: the decoded envelope, or `none` when it leaves
the pointer nil, as decoding the frame `null` does. -/
structure Env where
  newSocket : List Effect → String → Except String Conn
  connWriteJSON : List Effect → Conn → Payload → Option String
  connReadJSON : List Effect → Conn → Option Response × Option String
  connClose : List Effect → Conn → Option String

/-- Why a run produced no result. -/
inductive Fault where
  | nilDeref
  | outOfFuel
  | handlerPanic
deriving DecidableEq, Repr

/-- Appends one effect to the trace. -/
def World.emit (w : World) (e : Effect) : World :=
  { w with trace := w.trace ++ [e] }

/-- The method `Socket.Connect` (socket.conner.go). -/
def Connect (env : Env) (w : World) : Option String × World :=
  if w.sock.connected then (none, w)
  else
    match env.newSocket w.trace w.sock.url with
    | .error err =>
        (some err,
          { sock := { w.sock with connected := false },
            trace := w.trace ++ [Effect.dial w.sock.url] })
    | .ok websocket =>
        (none,
          { sock := { w.sock with conn := some websocket, connected := true },
            trace := w.trace ++ [Effect.dial w.sock.url] })

/-- The method `Socket.Connected`. -/
def Connected (w : World) : Bool := w.sock.connected

/-- The method `Socket.Disconnect`. -/
def Disconnect (env : Env) (w : World) : Except Fault (Option String × World) :=
  if !w.sock.connected then
    .ok (some "Could not disconnect (no connection exists)", w)
  else
    match w.sock.conn with
    | none => .error Fault.nilDeref
    | some c =>
        .ok (env.connClose w.trace c,
          { sock := { w.sock with conn := none, connected := false },
            trace := w.trace ++ [Effect.connClose c] })

/-- The method `Socket.ReadJSON`: what is left behind the pointer `v` (`none`
for nil) and the error. -/
def ReadJSON (env : Env) (w : World) (v : Option Response) :
    Except Fault ((Option Response × Option String) × World) :=
  match Connect env w with
  | (some err, w1) => .ok ((v, some err), w1)
  | (none, w1) =>
      match w1.sock.conn with
      | none => .error Fault.nilDeref
      | some c => .ok (env.connReadJSON w1.trace c, w1.emit (Effect.connRead c))

/-- The method `Socket.WriteJSON`. -/
def WriteJSON (env : Env) (w : World) (v : Payload) :
    Except Fault (Option String × World) :=
  match Connect env w with
  | (some err, w1) => .ok (some err, w1)
  | (none, w1) =>
      match w1.sock.conn with
      | none => .error Fault.nilDeref
      | some c => .ok (env.connWriteJSON w1.trace c v, w1.emit (Effect.connWrite c v))

/-- The method `Socket.CurCommandID`. -/
def CurCommandID (w : World) : Int := w.sock.commandID

/-- The method `Socket.NextCommandID`: the id returned and the state after. -/
def NextCommandID (w : World) : Int × World :=
  let w1 : World := { w with sock := { w.sock with commandID := wrapInt (w.sock.commandID + 1) } }
  (w1.sock.commandID, w1)

/-- The method `Socket.Stop`. -/
def Stop (w : World) : World :=
  { w with sock := { w.sock with stopListening := true } }

/-- The method `Socket.handleResponse`. -/
def handleResponse (w : World) (response : Response) : World :=
  match w.sock.commands.Get response.ID with
  | none => w
  | some command =>
      let w1 := w.emit (Effect.respond command response)
      { w1 with sock := { w1.sock with commands := w1.sock.commands.Delete command.ID } }

/-- The method `Socket.handleEvent`: one `go event.Handle(response)` per
listener of the collection, in the order of the collection. -/
def handleEvent (w : World) (response : Response) : World :=
  match w.sock.handlers.Get response.Method with
  | none => w
  | some handlers =>
      { w with trace := w.trace ++ handlers.map (fun event => Effect.handle event response) }

/-- The method `Socket.handleUnknown`. -/
def handleUnknown (w : World) (response : Response) : World :=
  match w.sock.commands.Get 0 with
  | none => w
  | some command => w.emit (Effect.respond command response)

/-- Which of the three handlers an iteration of `Listen` runs. -/
inductive Route where
  | response
  | event
  | unknown
deriving DecidableEq, Repr

/-- The `if / else if / else` of the loop body of `Listen` (lines 303-332),
as the branch it takes. -/
def route (response : Response) : Route :=
  if response.ID > 0 then Route.response
  else if "" ≠ response.Method then Route.event
  else Route.unknown

/-- The envelope handed to `handleUnknown`: an error is synthesised when the
frame carried none. -/
def withUnknownError (response : Response) : Response :=
  if response.Error = none then
    { response with Error := some { Code := 0, Data := "", Message := "Unknown response from web socket" } }
  else response

/-- The body of the branch `route` selects (lines 303-332 of `Listen`). -/
def dispatch (w : World) (response : Response) : World :=
  match route response with
  | Route.response => handleResponse w response
  | Route.event => handleEvent w response
  | Route.unknown => handleUnknown w (withUnknownError response)

/-- One iteration of the `for` loop of `Listen`, up to the test of the stop
flag: the error of the read and the state after the handler ran. The read
is handed `response := &Response{}`; when it leaves `response` nil, the test
`response.ID > 0` (line 303) is a nil dereference. -/
def listenIter (env : Env) (w : World) : Except Fault (Option String × World) :=
  match ReadJSON env w (some Response.zero) with
  | .error f => .error f
  | .ok ((none, _), _) => .error Fault.nilDeref
  | .ok ((some response, err), w1) =>
      let w2 := if err.isSome then Stop w1 else w1
      .ok (err, dispatch w2 response)

/-- The `for` loop of `Listen`: iterations until the stop flag is found
set; the error of the last read and the state on leaving the loop. -/
def listenLoop (env : Env) : Nat → World → Except Fault (Option String × World)
  | 0, _ => .error Fault.outOfFuel
  | fuel + 1, w =>
      match listenIter env w with
      | .error f => .error f
      | .ok (err, w1) =>
          if w1.sock.stopListening then .ok (err, w1)
          else listenLoop env fuel w1

/-- The method `Socket.Listen`: the error returned and the state after the
deferred `Disconnect` ran. -/
def Listen (env : Env) (fuel : Nat) (w : World) : Except Fault (Option String × World) :=
  match Connect env w with
  | (some err, w1) => .ok (some ("socket connection failed: " ++ err), w1)
  | (none, w1) =>
      let w2 : World := { w1 with sock := { w1.sock with stopListening := false } }
      match listenLoop env fuel w2 with
      | .error f => .error f
      | .ok (err, w3) =>
          let ret := err.map (fun e => "socket read failed: " ++ e)
          match Disconnect env w3 with
          | .error f => .error f
          | .ok (_, w4) => .ok (ret, w4)

/-- The response `SendCommand` resolves a command with when the write
failed with `err`. -/
def sendFailure (err : String) : Response :=
  { Response.zero with
    Error := some
      { Code := 1
        Data := "\"" ++ err ++ "\""
        Message := "Failed to send command payload to socket connection" } }

/-- The method `Socket.SendCommand`, its goroutine run to completion: the
channel returned and the state after. -/
def SendCommand (env : Env) (w : World) (command : Commander) :
    Except Fault (Nat × World) :=
  let payload : Payload :=
    { ID := command.ID, Method := command.Method, Params := command.Params }
  match WriteJSON env w payload with
  | .error f => .error f
  | .ok (some err, w1) =>
      .ok (command.Response, w1.emit (Effect.respond command (sendFailure err)))
  | .ok (none, w1) =>
      .ok (command.Response,
        { w1 with sock := { w1.sock with commands := w1.sock.commands.Set command } })

/-! ## The process: the instance counter and the constructor -/

/-- The package-level state: `_socketCounter` and the sockets built so far. -/
structure Process where
  socketCounter : Int
  sockets : List World
deriving DecidableEq, Repr

/-- The state of a process at start-up (`var _socketCounter = 0`). -/
def Process.start : Process := { socketCounter := 0, sockets := [] }

/-- The function `NextSocketID`. -/
def NextSocketID (p : Process) : Int × Process :=
  let p1 : Process := { p with socketCounter := wrapInt (p.socketCounter + 1) }
  (p1.socketCounter, p1)

/-- The fields `New` gives a socket whose id is `socketID`. -/
def freshSocket (socketID : Int) (url : String) : World :=
  { sock :=
      { commands := NewCommandMap
        commandID := 0
        conn := none
        connected := false
        handlers := NewEventHandlerMap
        url := url
        socketID := socketID
        stopListening := false }
    trace := [] }

/-- The function `New`: the socket built and the process after. The read
loop it starts with `go socket.Listen()` is run separately by `Listen`. -/
def New (p : Process) (url : String) : World × Process :=
  let (id, p1) := NextSocketID p
  let socket := freshSocket id url
  (socket, { p1 with sockets := p1.sockets ++ [socket] })

/-- `NextCommandID` called on the `i`-th socket of the process. -/
def Process.NextCommandID (p : Process) (i : Nat) : Option Int × Process :=
  match p.sockets.get? i with
  | none => (none, p)
  | some w =>
      let (id, w1) := GoChrome.NextCommandID w
      (some id, { p with sockets := p.sockets.set i w1 })

/-! ## Reading a trace -/

/-- How many times `Respond` was called on `command` in a trace. -/
def respondCount (t : List Effect) (command : Commander) : Nat :=
  t.countP (fun e =>
    match e with
    | Effect.respond c _ => c == command
    | _ => false)

/-- The payloads written to a channel in a trace, in order. -/
def writes (t : List Effect) : List Payload :=
  t.filterMap (fun e =>
    match e with
    | Effect.connWrite _ p => some p
    | _ => none)

/-- The world after `n` calls of `NextCommandID`. -/
def afterNextCommandID : Nat → World → World
  | 0, w => w
  | n + 1, w => (NextCommandID (afterNextCommandID n w)).2

/-- The process after `n` calls of `NextSocketID`. -/
def afterNextSocketID : Nat → Process → Process
  | 0, p => p
  | n + 1, p => (NextSocketID (afterNextSocketID n p)).2

/-- The process after `n` calls of `New`. -/
def afterNew (url : String) : Nat → Process → Process
  | 0, p => p
  | n + 1, p => (New (afterNew url n p) url).2

/-! ## Concrete inputs -/

/-- An outside world in which the factory opens channel 1, every write and
close succeeds, and the first `good` reads deliver the empty frame while
every later read fails with `EOF`. -/
def envReads (good : Nat) : Env :=
  { newSocket := fun _ _ => .ok 1
    connWriteJSON := fun _ _ _ => none
    connReadJSON := fun t _ =>
      if t.countP (fun e => match e with | Effect.connRead _ => true | _ => false) < good
      then (some Response.zero, none)
      else (some Response.zero, some "EOF")
    connClose := fun _ _ => none }

/-- An outside world in which the factory refuses every connection. -/
def envRefused : Env :=
  { newSocket := fun _ _ => .error "refused"
    connWriteJSON := fun _ _ _ => none
    connReadJSON := fun _ _ => (some Response.zero, none)
    connClose := fun _ _ => none }

/-- A command `Foo.bar` with the given id, answered on channel 7. -/
def cmdFoo (id : Int) : Commander :=
  { ID := id, Method := "Foo.bar", Params := "", Response := 7 }

/-- A command `Baz.qux` with the given id, answered on channel 8. -/
def cmdBaz (id : Int) : Commander :=
  { ID := id, Method := "Baz.qux", Params := "", Response := 8 }

/-- A response carrying `result` for the command `id`. -/
def resultFor (id : Int) (result : String) : Response :=
  { Response.zero with ID := id, Result := result }

/-- An envelope with the method name Foo.changed and the id -1. -/
def negativeIdEvent : Response :=
  { Response.zero with ID := -1, Method := "Foo.changed" }

/-- A socket as built by `New`, with the given commands registered. -/
def worldWith (commands : CommandMap) : World :=
  { freshSocket 1 "ws://localhost:9222" with
    sock := { (freshSocket 1 "ws://localhost:9222").sock with commands := commands } }

/-- A command with id 0 is submitted on a fresh socket, then `Listen`
reads two empty frames and a third read fails. -/
def idZeroRun : Except Fault (Option String × World) :=
  match SendCommand (envReads 2) (freshSocket 1 "ws://localhost:9222") (cmdFoo 0) with
  | .error f => .error f
  | .ok (_, w1) => Listen (envReads 2) 3 w1

/-- The world after the channel factory refused `worldWith []`. -/
def refusedWorld : World :=
  { (worldWith []) with trace := [Effect.dial "ws://localhost:9222"] }

/-- One call on the package or on one of its sockets. -/
inductive Step where
  | new (url : String)
  | nextSocketID
  | nextCommandID (i : Nat)
deriving DecidableEq, Repr

/-- The process after one call. -/
def Process.step (p : Process) : Step → Process
  | Step.new url => (New p url).2
  | Step.nextSocketID => (NextSocketID p).2
  | Step.nextCommandID i => (p.NextCommandID i).2

/-- The process after a sequence of calls. -/
def Process.run (p : Process) (steps : List Step) : Process :=
  steps.foldl Process.step p

/-- The instance ids of the sockets built so far, oldest first. -/
def Process.socketIDs (p : Process) : List Int :=
  p.sockets.map (fun w => w.sock.socketID)

/-! ## Event handlers -/

/-- Modelled from the spec: the text of the error `Get` of the
event-handler registry returns when a method name has no collection (the
spec calls the condition `NotFound`; the registry is not among the
sources). -/
def EventHandlerMap.notFound (name : String) : String :=
  "NotFound: " ++ name

/-- The method `Socket.AddEventHandler`. -/
def AddEventHandler (w : World) (handler : EventHandler) : World :=
  { w with sock := { w.sock with handlers := w.sock.handlers.Add handler } }

/-- The loop `for i, hndlr := range handlers` of `RemoveEventHandler` from
index `i` on, `rest` being `handlers[i:]`: at the first `hndlr == handler`
the collection `append(handlers[:i], handlers[i+1:]...)` to store, `none`
when the loop runs to its end. -/
def removeScan (handler : EventHandler) (handlers : List EventHandler) :
    List EventHandler → Nat → Option (List EventHandler)
  | [], _ => none
  | hndlr :: rest, i =>
      if hndlr = handler then some (handlers.take i ++ handlers.drop (i + 1))
      else removeScan handler handlers rest (i + 1)

/-- The method `Socket.RemoveEventHandler`: the error returned and the
state after. -/
def RemoveEventHandler (w : World) (handler : EventHandler) : Option String × World :=
  match w.sock.handlers.Get handler.Name with
  | none => (some (EventHandlerMap.notFound handler.Name), w)
  | some handlers =>
      match removeScan handler handlers handlers 0 with
      | some kept =>
          (none,
            { w with sock := { w.sock with handlers := w.sock.handlers.Set handler.Name kept } })
      | none => (none, w)

/-- The listeners `Handle` was started on in a trace, in order. -/
def handled (t : List Effect) : List (EventHandler × Response) :=
  t.filterMap (fun e =>
    match e with
    | Effect.handle h r => some (h, r)
    | _ => none)

/-! ## Further concrete inputs -/

/-- A socket as built by `New` that has since connected to channel 1. -/
def connectedWorld : World :=
  { sock := { (worldWith []).sock with conn := some 1, connected := true }
    trace := [Effect.dial "ws://localhost:9222"] }

/-- An outside world in which every close fails with `broken pipe`. -/
def envCloseFails : Env :=
  { newSocket := fun _ _ => .ok 2
    connWriteJSON := fun _ _ _ => none
    connReadJSON := fun _ _ => (some Response.zero, none)
    connClose := fun _ _ => some "broken pipe" }

/-- A listener for `Foo.changed`. -/
def onChanged1 : EventHandler := { Name := "Foo.changed", ref := 1 }

/-- A second listener for `Foo.changed`. -/
def onChanged2 : EventHandler := { Name := "Foo.changed", ref := 2 }

/-- A listener for `Bar.added`. -/
def onAdded : EventHandler := { Name := "Bar.added", ref := 3 }

/-- A socket as built by `New`, with the given event-handler registry. -/
def worldHandlers (handlers : EventHandlerMap) : World :=
  { sock := { (worldWith []).sock with handlers := handlers }
    trace := [] }

/-- The event `Foo.changed` with the given params. -/
def fooChanged (params : String) : Response :=
  { Response.zero with Method := "Foo.changed", Params := params }

/-! ## The domain wrappers -/

/-- One wrapper function of a domain type: the type it is a method of
(the protocol domain of its header comment), its name, whether it
subscribes to an event (otherwise it submits a command) and the method name
it passes on. -/
structure Wrapper where
  domain : String
  name : String
  isEvent : Bool
  method : String
deriving DecidableEq, Repr

/-- The wrappers of `Database` (chrome.database.go), in source order. -/
def databaseWrappers : List Wrapper :=
  [ { domain := "Database", name := "Disable", isEvent := false, method := "Database.disable" },
    { domain := "Database", name := "Enable", isEvent := false, method := "Database.enable" },
    { domain := "Database", name := "ExecuteSQL", isEvent := false, method := "Database.executeSQL" },
    { domain := "Database", name := "GetDatabaseTableNames", isEvent := false, method := "Database.getDatabaseTableNames" },
    { domain := "Database", name := "OnAddDatabase", isEvent := true, method := "Database.addDatabase" } ]

/-- The wrappers of `DOM` (chrome.dom.go), in source order. -/
def domWrappers : List Wrapper :=
  [ { domain := "DOM", name := "CollectClassNamesFromSubtree", isEvent := false, method := "DOM.collectClassNamesFromSubtree" },
    { domain := "DOM", name := "CopyTo", isEvent := false, method := "DOM.copyTo" },
    { domain := "DOM", name := "DescribeNode", isEvent := false, method := "DOM.describeNode" },
    { domain := "DOM", name := "Disable", isEvent := false, method := "DOM.disable" },
    { domain := "DOM", name := "DiscardSearchResults", isEvent := false, method := "DOM.discardSearchResults" },
    { domain := "DOM", name := "Enable", isEvent := false, method := "DOM.enable" },
    { domain := "DOM", name := "Focus", isEvent := false, method := "DOM.focus" },
    { domain := "DOM", name := "GetAttributes", isEvent := false, method := "DOM.getAttributes" },
    { domain := "DOM", name := "GetBoxModel", isEvent := false, method := "DOM.getBoxModel" },
    { domain := "DOM", name := "GetDocument", isEvent := false, method := "DOM.getDocument" },
    { domain := "DOM", name := "GetFlattenedDocument", isEvent := false, method := "DOM.getFlattenedDocument" },
    { domain := "DOM", name := "GetNodeForLocation", isEvent := false, method := "DOM.getNodeForLocation" },
    { domain := "DOM", name := "GetOuterHTML", isEvent := false, method := "DOM.getOuterHTML" },
    { domain := "DOM", name := "GetRelayoutBoundary", isEvent := false, method := "DOM.getRelayoutBoundary" },
    { domain := "DOM", name := "GetSearchResults", isEvent := false, method := "DOM.getSearchResults" },
    { domain := "DOM", name := "MarkUndoableState", isEvent := false, method := "DOM.markUndoableState" },
    { domain := "DOM", name := "MoveTo", isEvent := false, method := "DOM.moveTo" },
    { domain := "DOM", name := "PerformSearch", isEvent := false, method := "DOM.performSearch" },
    { domain := "DOM", name := "PushNodeByPathToFrontend", isEvent := false, method := "DOM.pushNodeByPathToFrontend" },
    { domain := "DOM", name := "PushNodesByBackendIDsToFrontend", isEvent := false, method := "DOM.pushNodesByBackendIdsToFrontend" },
    { domain := "DOM", name := "QuerySelector", isEvent := false, method := "DOM.querySelector" },
    { domain := "DOM", name := "QuerySelectorAll", isEvent := false, method := "DOM.querySelectorAll" },
    { domain := "DOM", name := "Redo", isEvent := false, method := "DOM.redo" },
    { domain := "DOM", name := "RemoveAttribute", isEvent := false, method := "DOM.removeAttribute" },
    { domain := "DOM", name := "RemoveNode", isEvent := false, method := "DOM.removeNode" },
    { domain := "DOM", name := "RequestChildNodes", isEvent := false, method := "DOM.requestChildNodes" },
    { domain := "DOM", name := "RequestNode", isEvent := false, method := "DOM.requestNode" },
    { domain := "DOM", name := "ResolveNode", isEvent := false, method := "DOM.resolveNode" },
    { domain := "DOM", name := "SetAttributeValue", isEvent := false, method := "DOM.setAttributeValue" },
    { domain := "DOM", name := "SetAttributesAsText", isEvent := false, method := "DOM.setAttributesAsText" },
    { domain := "DOM", name := "SetFileInputFiles", isEvent := false, method := "DOM.setFileInputFiles" },
    { domain := "DOM", name := "SetInspectedNode", isEvent := false, method := "DOM.setInspectedNode" },
    { domain := "DOM", name := "SetNodeName", isEvent := false, method := "DOM.setNodeName" },
    { domain := "DOM", name := "SetNodeValue", isEvent := false, method := "DOM.setNodeValue" },
    { domain := "DOM", name := "SetOuterHTML", isEvent := false, method := "DOM.setOuterHTML" },
    { domain := "DOM", name := "Undo", isEvent := false, method := "DOM.undo" },
    { domain := "DOM", name := "OnAttributeModified", isEvent := true, method := "DOM.attributeModified" },
    { domain := "DOM", name := "OnAttributeRemoved", isEvent := true, method := "DOM.attributeRemoved" },
    { domain := "DOM", name := "OnCharacterDataModified", isEvent := true, method := "DOM.characterDataModified" },
    { domain := "DOM", name := "OnChildNodeCountUpdated", isEvent := true, method := "DOM.childNodeCountUpdated" },
    { domain := "DOM", name := "OnChildNodeInserted", isEvent := true, method := "DOM.childNodeInserted" },
    { domain := "DOM", name := "OnChildNodeRemoved", isEvent := true, method := "DOM.childNodeRemoved" },
    { domain := "DOM", name := "OnDistributedNodesUpdated", isEvent := true, method := "DOM.distributedNodesUpdated" },
    { domain := "DOM", name := "OnDocumentUpdated", isEvent := true, method := "DOM.documentUpdated" },
    { domain := "DOM", name := "OnInlineStyleInvalidated", isEvent := true, method := "DOM.inlineStyleInvalidated" },
    { domain := "DOM", name := "OnPseudoElementAdded", isEvent := true, method := "DOM.pseudoElementAdded" },
    { domain := "DOM", name := "OnPseudoElementRemoved", isEvent := true, method := "DOM.pseudoElementRemoved" },
    { domain := "DOM", name := "OnSetChildNodes", isEvent := true, method := "DOM.setChildNodes" },
    { domain := "DOM", name := "OnShadowRootPopped", isEvent := true, method := "DOM.shadowRootPopped" },
    { domain := "DOM", name := "OnShadowRootPushed", isEvent := true, method := "DOM.shadowRootPushed" } ]

/-- The wrappers of `Log` (chrome.log.go), in source order. -/
def logWrappers : List Wrapper :=
  [ { domain := "Log", name := "Clear", isEvent := false, method := "Log.clear" },
    { domain := "Log", name := "Disable", isEvent := false, method := "Log.disable" },
    { domain := "Log", name := "Enable", isEvent := false, method := "Log.enable" },
    { domain := "Log", name := "StartViolationsReport", isEvent := false, method := "Log.startViolationsReport" },
    { domain := "Log", name := "StopViolationsReport", isEvent := false, method := "Log.stopViolationsReport" },
    { domain := "Log", name := "OnEntryAdded", isEvent := true, method := "Log.entryAdded" } ]

/-- The wrappers of `Overlay` (chrome.overlay.go), in source order. -/
def overlayWrappers : List Wrapper :=
  [ { domain := "Overlay", name := "Disable", isEvent := false, method := "Overlay.disable" },
    { domain := "Overlay", name := "Enable", isEvent := false, method := "Overlay.enable" },
    { domain := "Overlay", name := "GetHighlightObjectForTest", isEvent := false, method := "Overlay.getHighlightObjectForTest" },
    { domain := "Overlay", name := "HideHighlight", isEvent := false, method := "Overlay.hideHighlight" },
    { domain := "Overlay", name := "HighlightFrame", isEvent := false, method := "Overlay.highlightFrame" },
    { domain := "Overlay", name := "HighlightNode", isEvent := false, method := "Overlay.highlightNode" },
    { domain := "Overlay", name := "HighlightQuad", isEvent := false, method := "Overlay.highlightQuad" },
    { domain := "Overlay", name := "HighlightRect", isEvent := false, method := "Overlay.highlightRect" },
    { domain := "Overlay", name := "SetInspectMode", isEvent := false, method := "Overlay.setInspectMode" },
    { domain := "Overlay", name := "SetPausedInDebuggerMessage", isEvent := false, method := "Overlay.setPausedInDebuggerMessage" },
    { domain := "Overlay", name := "SetShowDebugBorders", isEvent := false, method := "Overlay.setShowDebugBorders" },
    { domain := "Overlay", name := "SetShowFPSCounter", isEvent := false, method := "Overlay.setShowFPSCounter" },
    { domain := "Overlay", name := "SetShowScrollBottleneckRects", isEvent := false, method := "Overlay.setShowScrollBottleneckRects" },
    { domain := "Overlay", name := "SetShowViewportSizeOnResize", isEvent := false, method := "Overlay.setShowViewportSizeOnResize" },
    { domain := "Overlay", name := "SetSuspended", isEvent := false, method := "Overlay.setSuspended" },
    { domain := "Overlay", name := "OnInspectNodeRequested", isEvent := true, method := "Overlay.inspectNodeRequested" },
    { domain := "Overlay", name := "OnNodeHighlightRequested", isEvent := true, method := "Overlay.nodeHighlightRequested" },
    { domain := "Overlay", name := "OnScreenshotRequested", isEvent := true, method := "Overlay.screenshotRequested" } ]

/-- The wrappers of `ServiceWorker` (chrome.service_worker.go), in source order. -/
def serviceWorkerWrappers : List Wrapper :=
  [ { domain := "ServiceWorker", name := "DeliverPushMessage", isEvent := false, method := "ServiceWorker.deliverPushMessage" },
    { domain := "ServiceWorker", name := "Disable", isEvent := false, method := "ServiceWorker.disable" },
    { domain := "ServiceWorker", name := "DispatchSyncEvent", isEvent := false, method := "ServiceWorker.dispatchSyncEvent" },
    { domain := "ServiceWorker", name := "Enable", isEvent := false, method := "ServiceWorker.enable" },
    { domain := "ServiceWorker", name := "InspectWorker", isEvent := false, method := "ServiceWorker.inspectWorker" },
    { domain := "ServiceWorker", name := "SetForceUpdateOnPageLoad", isEvent := false, method := "ServiceWorker.setForceUpdateOnPageLoad" },
    { domain := "ServiceWorker", name := "SkipWaiting", isEvent := false, method := "ServiceWorker.skipWaiting" },
    { domain := "ServiceWorker", name := "StartWorker", isEvent := false, method := "ServiceWorker.startWorker" },
    { domain := "ServiceWorker", name := "StopAllWorkers", isEvent := false, method := "ServiceWorker.stopAllWorkers" },
    { domain := "ServiceWorker", name := "StopWorker", isEvent := false, method := "ServiceWorker.stopWorker" },
    { domain := "ServiceWorker", name := "Unregister", isEvent := false, method := "ServiceWorker.unregister" },
    { domain := "ServiceWorker", name := "UpdateRegistration", isEvent := false, method := "ServiceWorker.updateRegistration" },
    { domain := "ServiceWorker", name := "OnWorkerErrorReported", isEvent := true, method := "ServiceWorker.workerErrorReported" },
    { domain := "ServiceWorker", name := "OnWorkerRegistrationUpdated", isEvent := true, method := "ServiceWorker.workerRegistrationUpdated" },
    { domain := "ServiceWorker", name := "OnWorkerVersionUpdated", isEvent := true, method := "ServiceWorker.workerVersionUpdated" } ]

/-- The wrappers of `Storage` (chrome.storage.go), in source order. -/
def storageWrappers : List Wrapper :=
  [ { domain := "Storage", name := "ClearDataForOrigin", isEvent := false, method := "storage.clearDataForOrigin" },
    { domain := "Storage", name := "GetUsageAndQuota", isEvent := false, method := "storage.getUsageAndQuota" },
    { domain := "Storage", name := "TrackCacheStorageForOrigin", isEvent := false, method := "storage.trackCacheStorageForOrigin" },
    { domain := "Storage", name := "TrackIndexedDBForOrigin", isEvent := false, method := "storage.trackIndexedDBForOrigin" },
    { domain := "Storage", name := "UntrackCacheStorageForOrigin", isEvent := false, method := "storage.untrackCacheStorageForOrigin" },
    { domain := "Storage", name := "UntrackIndexedDBForOrigin", isEvent := false, method := "storage.untrackIndexedDBForOrigin" },
    { domain := "Storage", name := "OnCacheStorageContentUpdated", isEvent := true, method := "Storage.cacheStorageContentUpdated" },
    { domain := "Storage", name := "OnCacheStorageListUpdated", isEvent := true, method := "Storage.cacheStorageListUpdated" },
    { domain := "Storage", name := "OnIndexedDBContentUpdated", isEvent := true, method := "Storage.indexedDBContentUpdated" },
    { domain := "Storage", name := "OnIndexedDBListUpdated", isEvent := true, method := "Storage.indexedDBListUpdated" } ]

/-- The wrappers of the six domain types. -/
def allWrappers : List Wrapper :=
  databaseWrappers ++ domWrappers ++ logWrappers ++ overlayWrappers ++ serviceWorkerWrappers ++ storageWrappers

/-- Whether a method name has the form of the wrapper's domain name, a dot
and a non-empty action. -/
def Wrapper.conforms (w : Wrapper) : Bool :=
  (w.domain.toList ++ ['.']).isPrefixOf w.method.toList &&
    decide (w.domain.length + 1 < w.method.length)

/-- The fields of `protocol.Command` a wrapper uses. -/
structure ProtocolCommand where
  Method : String
  Params : String
  Err : Option String
  Result : Option String
deriving DecidableEq, Repr

/-- What a result-returning wrapper calls: `SendCommand` of the `Socket`
of package `chrome` (not among the sources), as the command it leaves
behind, `json.Marshal`, and `json.Unmarshal` as the value it leaves in
`result` and its error. -/
structure WrapperEnv (R : Type) where
  SendCommand : ProtocolCommand → ProtocolCommand
  Marshal : String → Except String String
  Unmarshal : String → R → R × Option String

/-- The body shared by the result-returning wrappers (`ExecuteSQL`,
`GetUsageAndQuota`, ...): `zero` is the value of `result := T{}`. -/
def resultWrapper {R : Type} (env : WrapperEnv R) (method : String) (params : String)
    (zero : R) : R × Option String :=
  let command := env.SendCommand
    { Method := method, Params := params, Err := none, Result := none }
  let result := zero
  match command.Err with
  | some err => (result, some err)
  | none =>
      match command.Result with
      | some res =>
          match env.Marshal res with
          | .error err => (result, some err)
          | .ok resultData =>
              match env.Unmarshal resultData result with
              | (result1, some err) => (result1, some err)
              | (result1, none) => (result1, command.Err)
      | none => (result, command.Err)

/-- The wrapper `Database.ExecuteSQL`. -/
def Database.ExecuteSQL {R : Type} (env : WrapperEnv R) (params : String) (zero : R) :
    R × Option String :=
  resultWrapper env "Database.executeSQL" params zero

/-- The wrapper `Storage.GetUsageAndQuota`. -/
def Storage.GetUsageAndQuota {R : Type} (env : WrapperEnv R) (params : String) (zero : R) :
    R × Option String :=
  resultWrapper env "storage.getUsageAndQuota" params zero

/-- A `SendCommand` after which the command carries the error `timeout`
and a result. -/
def wrapperEnvFailing : WrapperEnv Nat :=
  { SendCommand := fun c => { c with Err := some "timeout", Result := some "1" }
    Marshal := fun r => .ok r
    Unmarshal := fun _ _ => (42, none) }

/-- A `SendCommand` after which the command carries neither an error nor a
result. -/
def wrapperEnvEmpty : WrapperEnv Nat :=
  { SendCommand := fun c => c
    Marshal := fun r => .ok r
    Unmarshal := fun _ _ => (42, none) }

/-! ## DOMBreakpointType -/

/-- The method `DOMBreakpointType.String` (dom_debugger.go); the panic is
the error, with the text of its value. -/
def DOMBreakpointType.String (a : Int) : Except String String :=
  if a = 0 then .ok "subtree-modified"
  else if a = 1 then .ok "attribute-modified"
  else if a = 2 then .ok "node-removed"
  else .error ("Invalid DOMBreakpointType " ++ toString a)

/-! ## Locks and shared fields -/

/-- The mutexes: `socket.mux`, `socket.commandIDMux` and the package-level
`_socketCounterMux`. -/
inductive Mutex where
  | mux
  | commandIDMux
  | socketCounterMux
deriving DecidableEq, Repr

/-- The mutable shared fields. -/
inductive Field where
  | connected
  | conn
  | commandID
  | stopListening
  | socketCounter
deriving DecidableEq, Repr

/-- What a method does to a mutex or to a shared field. -/
inductive MemOp where
  | lock (m : Mutex)
  | unlock (m : Mutex)
  | read (f : Field)
  | write (f : Field)
deriving DecidableEq, Repr

/-- The mutex that guards a field: the one the source locks around it
where it locks at all (`mux` in `Connect`, `commandIDMux` in the command-id
methods, `_socketCounterMux` in `NextSocketID`); `stopListening` is never
accessed under a lock and is counted with the other fields of the socket's
`mux`. -/
def guardOf : Field → Mutex
  | Field.connected => Mutex.mux
  | Field.conn => Mutex.mux
  | Field.stopListening => Mutex.mux
  | Field.commandID => Mutex.commandIDMux
  | Field.socketCounter => Mutex.socketCounterMux

/-- The fields a sequence of operations reads or writes while their guard
is not among the mutexes `held`, in order. -/
def unguardedFrom (held : List Mutex) : List MemOp → List Field
  | [] => []
  | MemOp.lock m :: ops => unguardedFrom (m :: held) ops
  | MemOp.unlock m :: ops => unguardedFrom (held.erase m) ops
  | MemOp.read f :: ops =>
      if guardOf f ∈ held then unguardedFrom held ops else f :: unguardedFrom held ops
  | MemOp.write f :: ops =>
      if guardOf f ∈ held then unguardedFrom held ops else f :: unguardedFrom held ops

/-- The unguarded accesses of a method entered with no mutex held. -/
def unguarded (ops : List MemOp) : List Field := unguardedFrom [] ops

/-- `Connect`: lock, test `connected`; unless connected call the factory and
write `connected` (after `conn` when it succeeded); the deferred unlock. -/
def opsConnect (connected dialOk : Bool) : List MemOp :=
  [MemOp.lock Mutex.mux, MemOp.read Field.connected] ++
    (if connected then []
     else if dialOk then [MemOp.write Field.conn, MemOp.write Field.connected]
     else [MemOp.write Field.connected]) ++
    [MemOp.unlock Mutex.mux]

/-- `Connected`: `return socket.connected`. -/
def opsConnected : List MemOp := [MemOp.read Field.connected]

/-- `Disconnect`: test `connected`; when connected `socket.conn.Close()`,
`socket.conn = nil`, `socket.connected = false`. -/
def opsDisconnect (connected : Bool) : List MemOp :=
  [MemOp.read Field.connected] ++
    (if connected then
      [MemOp.read Field.conn, MemOp.write Field.conn, MemOp.write Field.connected]
     else [])

/-- `ReadJSON` and `WriteJSON`: `Connect`, then `socket.conn.ReadJSON` or
`socket.conn.WriteJSON` when it returned nil. -/
def opsReadWriteJSON (connected dialOk : Bool) : List MemOp :=
  opsConnect connected dialOk ++
    (if connected || dialOk then [MemOp.read Field.conn] else [])

/-- `Stop`: `socket.stopListening = true`. -/
def opsStop : List MemOp := [MemOp.write Field.stopListening]

/-- `NextCommandID`: lock, `socket.commandID++`, `id := socket.commandID`,
unlock. -/
def opsNextCommandID : List MemOp :=
  [MemOp.lock Mutex.commandIDMux, MemOp.read Field.commandID, MemOp.write Field.commandID,
    MemOp.read Field.commandID, MemOp.unlock Mutex.commandIDMux]

/-- `CurCommandID`: lock, `id := socket.commandID`, unlock. -/
def opsCurCommandID : List MemOp :=
  [MemOp.lock Mutex.commandIDMux, MemOp.read Field.commandID,
    MemOp.unlock Mutex.commandIDMux]

/-- `NextSocketID`: lock, `_socketCounter++`, `id := _socketCounter`,
unlock. -/
def opsNextSocketID : List MemOp :=
  [MemOp.lock Mutex.socketCounterMux, MemOp.read Field.socketCounter,
    MemOp.write Field.socketCounter, MemOp.read Field.socketCounter,
    MemOp.unlock Mutex.socketCounterMux]

/-- `Listen` on a socket that connects, with one iteration whose read
fails: `Connect`, `socket.stopListening = false`, `ReadJSON`, `Stop`, the
test of `socket.stopListening`, the deferred `Disconnect`. -/
def opsListen : List MemOp :=
  opsConnect false true ++ [MemOp.write Field.stopListening] ++
    opsReadWriteJSON true true ++ opsStop ++ [MemOp.read Field.stopListening] ++
    opsDisconnect true

/-- How many reads of a channel a trace holds. -/
def readCount (t : List Effect) : Nat :=
  t.countP (fun e =>
    match e with
    | Effect.connRead _ => true
    | _ => false)

/-- The error `Listen` puts into an envelope that has neither a positive id
nor a method name and carries no error. -/
def unknownError : Error :=
  { Code := 0, Data := "", Message := "Unknown response from web socket" }

/-- A malformed frame that already carries an error. -/
def malformedWithError : Response :=
  { Response.zero with Error := some { Code := 7, Data := "", Message := "boom" } }

/-- A connected socket on which a command is registered under id 0. -/
def connectedWorldZero : World :=
  { connectedWorld with sock := { connectedWorld.sock with commands := [cmdFoo 0] } }

/-! ## Goroutines started by `handleEvent` -/

/-- Go runs the body of each `go event.Handle(response)` in a goroutine of
its own and fixes no order between goroutines: the bodies started in the
order `started` may begin in the order `order` when `order` is a
rearrangement of `started`. -/
def mayRunAs (started order : List (EventHandler × Response)) : Prop :=
  order.Perm started

instance (started order : List (EventHandler × Response)) :
    Decidable (mayRunAs started order) :=
  inferInstanceAs (Decidable (order.Perm started))

/-- The bodies of started goroutines when they run in the order given,
`panics h r` telling whether `h.Handle(r)` panics: the bodies that returned,
and the fault that ended the process, if any. `handleEvent` has no
`recover`, so a panic in a body is not caught and ends the whole process;
the bodies after it never run. -/
def runBodies (panics : EventHandler → Response → Bool) :
    List (EventHandler × Response) → List (EventHandler × Response) × Option Fault
  | [] => ([], none)
  | x :: rest =>
      if panics x.1 x.2 then ([], some Fault.handlerPanic)
      else ((x :: (runBodies panics rest).1), (runBodies panics rest).2)

/-- One iteration of the loop of `Listen` followed by the bodies of the
listeners it started, run in the order they were started before the loop
goes on. -/
def listenIterBodies (panics : EventHandler → Response → Bool) (env : Env) (w : World) :
    Except Fault (Option String × World) :=
  match listenIter env w with
  | .error f => .error f
  | .ok (err, w1) =>
      match (runBodies panics ((handled w1.trace).drop (handled w.trace).length)).2 with
      | some f => .error f
      | none => .ok (err, w1)

/-- The loop of `Listen` with the listener bodies run after each iteration. -/
def listenLoopBodies (panics : EventHandler → Response → Bool) (env : Env) :
    Nat → World → Except Fault (Option String × World)
  | 0, _ => .error Fault.outOfFuel
  | fuel + 1, w =>
      match listenIterBodies panics env w with
      | .error f => .error f
      | .ok (err, w1) =>
          if w1.sock.stopListening then .ok (err, w1)
          else listenLoopBodies panics env fuel w1

/-- An outside world in which the first `good` reads deliver the event
`Foo.changed` and every later read fails with `EOF`. -/
def envEvents (good : Nat) : Env :=
  { newSocket := fun _ _ => .ok 1
    connWriteJSON := fun _ _ _ => none
    connReadJSON := fun t _ =>
      if readCount t < good then (some (fooChanged "x"), none)
      else (some Response.zero, some "EOF")
    connClose := fun _ _ => none }

/-- An outside world in which every read decodes the frame `null` without
error, leaving the pointer handed to it nil. -/
def envNull : Env :=
  { newSocket := fun _ _ => .ok 1
    connWriteJSON := fun _ _ _ => none
    connReadJSON := fun _ _ => (none, none)
    connClose := fun _ _ => none }

/-- A connected socket with `onChanged1` and then `onChanged2` registered
for `Foo.changed`. -/
def connectedWorldListeners : World :=
  AddEventHandler (AddEventHandler connectedWorld onChanged1) onChanged2

/-- The listener `onChanged1` panics, every other listener returns. -/
def panicsFirst : EventHandler → Response → Bool :=
  fun h _ => decide (h = onChanged1)

/-! ## The pending-command registry -/

theorem CommandMap.Get_id {m : CommandMap} {id : Int} {c : Commander}
    (h : m.Get id = some c) : c.ID = id := by
  have := List.find?_some h
  simpa using this

theorem CommandMap.Get_Delete_self (m : CommandMap) (id : Int) :
    (m.Delete id).Get id = none := by
  simp [CommandMap.Get, CommandMap.Delete, List.find?_eq_none]

theorem CommandMap.Get_Delete_ne (m : CommandMap) {id k : Int} (h : k ≠ id) :
    (m.Delete id).Get k = m.Get k := by
  simp only [CommandMap.Get, CommandMap.Delete, List.find?_filter]
  congr 1
  funext c
  by_cases hk : c.ID = k
  · have hc : c.ID ≠ id := fun hc => h (hk.symm.trans hc)
    simp [hk, h]
  · simp [hk]

theorem CommandMap.Delete_comm (m : CommandMap) (a b : Int) :
    (m.Delete a).Delete b = (m.Delete b).Delete a := by
  simp only [CommandMap.Delete, List.filter_filter]
  congr 1
  funext c
  exact Bool.and_comm _ _

theorem CommandMap.Get_Set_self (m : CommandMap) (c : Commander) :
    (m.Set c).Get c.ID = some c := by
  simp [CommandMap.Get, CommandMap.Set]

theorem handleResponse_of_some {w : World} {r : Response} {c : Commander}
    (h : w.sock.commands.Get r.ID = some c) :
    handleResponse w r =
      { sock := { w.sock with commands := w.sock.commands.Delete r.ID },
        trace := w.trace ++ [Effect.respond c r] } := by
  have hid := CommandMap.Get_id h
  simp [handleResponse, h, World.emit, hid]

theorem handleResponse_of_none {w : World} {r : Response}
    (h : w.sock.commands.Get r.ID = none) : handleResponse w r = w := by
  simp [handleResponse, h]

theorem route_of_pos {r : Response} (h : 0 < r.ID) : route r = Route.response := by
  simp [route, h]


theorem handleResponse_second (w : World) (r r2 : Response) (h : r2.ID = r.ID) :
    handleResponse (handleResponse w r) r2 = handleResponse w r := by
  cases hget : w.sock.commands.Get r.ID with
  | none =>
    rw [handleResponse_of_none hget]
    exact handleResponse_of_none (h ▸ hget)
  | some c =>
    rw [handleResponse_of_some hget]
    apply handleResponse_of_none
    rw [h]
    exact CommandMap.Get_Delete_self _ _

/-! ## Responses -/

/-- C1: a response whose id is positive and registered makes `handleResponse`
call `Respond` once, on the command registered under that id and with that
response; afterwards the id is no longer registered, every other id is
registered as before and no other field of the socket changed. -/
theorem handleResponse_registered (w : World) (r : Response) (c : Commander)
    (hpos : 0 < r.ID) (hreg : w.sock.commands.Get r.ID = some c) :
    c.ID = r.ID ∧
    dispatch w r = handleResponse w r ∧
    (handleResponse w r).trace = w.trace ++ [Effect.respond c r] ∧
    (handleResponse w r).sock.commands.Get r.ID = none ∧
    (handleResponse w r).sock = { w.sock with commands := w.sock.commands.Delete r.ID } ∧
    ∀ k, k ≠ r.ID → (handleResponse w r).sock.commands.Get k = w.sock.commands.Get k := by
  have heq := handleResponse_of_some hreg
  refine ⟨CommandMap.Get_id hreg, ?_, ?_, ?_, ?_, ?_⟩
  · simp [dispatch, route_of_pos hpos]
  · rw [heq]
  · rw [heq]; exact CommandMap.Get_Delete_self _ _
  · rw [heq]
  · intro k hk
    rw [heq]; exact CommandMap.Get_Delete_ne _ hk

theorem handleResponse_registered_witness :
    (worldWith [cmdFoo 1]).sock.commands.Get (resultFor 1 "ok").ID = some (cmdFoo 1) ∧
    (handleResponse (worldWith [cmdFoo 1]) (resultFor 1 "ok")).trace =
      [Effect.respond (cmdFoo 1) (resultFor 1 "ok")] ∧
    (handleResponse (worldWith [cmdFoo 1]) (resultFor 1 "ok")).sock.commands.Get 1 = none :=
  ⟨by decide,
   (handleResponse_registered (worldWith [cmdFoo 1]) (resultFor 1 "ok") (cmdFoo 1)
      (by decide) (by decide)).2.2.1,
   (handleResponse_registered (worldWith [cmdFoo 1]) (resultFor 1 "ok") (cmdFoo 1)
      (by decide) (by decide)).2.2.2.1⟩

/-- C3: a response whose id is positive but not registered makes
`handleResponse` do nothing: no `Respond`, the registry and the stop flag are
as before (the whole state is). -/
theorem handleResponse_unregistered (w : World) (r : Response)
    (hpos : 0 < r.ID) (hnone : w.sock.commands.Get r.ID = none) :
    handleResponse w r = w ∧
    dispatch w r = w ∧
    (handleResponse w r).trace = w.trace ∧
    (handleResponse w r).sock.commands = w.sock.commands ∧
    (handleResponse w r).sock.stopListening = w.sock.stopListening := by
  have heq := handleResponse_of_none hnone
  refine ⟨heq, ?_, ?_, ?_, ?_⟩
  · simp [dispatch, route_of_pos hpos, heq]
  · rw [heq]
  · rw [heq]
  · rw [heq]

theorem handleResponse_unregistered_witness :
    (0 : Int) < (resultFor 2 "late").ID ∧
    (worldWith [cmdFoo 1]).sock.commands.Get (resultFor 2 "late").ID = none ∧
    handleResponse (worldWith [cmdFoo 1]) (resultFor 2 "late") = worldWith [cmdFoo 1] :=
  ⟨by decide, by decide,
   (handleResponse_unregistered (worldWith [cmdFoo 1]) (resultFor 2 "late")
      (by decide) (by decide)).1⟩

/-! ## Classification of envelopes -/

/-- C4, as stated, fails: an envelope with a method name and the id -1 is
routed to `handleEvent` although its id is not 0. -/
theorem route_event_negative_id :
    ¬ (route negativeIdEvent = Route.event ↔
        (negativeIdEvent.Method ≠ "" ∧ negativeIdEvent.ID = 0)) := by
  decide

/-- C4, amended: an envelope goes to `handleResponse` exactly when its id is
positive, to `handleEvent` exactly when its method is non-empty and its id
is not positive, to `handleUnknown` exactly when its method is empty and its
id is not positive; the iteration runs the one handler so selected. -/
theorem route_classification (r : Response) :
    (route r = Route.response ↔ 0 < r.ID) ∧
    (route r = Route.event ↔ (r.Method ≠ "" ∧ r.ID ≤ 0)) ∧
    (route r = Route.unknown ↔ (r.Method = "" ∧ r.ID ≤ 0)) ∧
    ∀ w, dispatch w r =
      if 0 < r.ID then handleResponse w r
      else if r.Method ≠ "" then handleEvent w r
      else handleUnknown w (withUnknownError r) := by
  by_cases hid : 0 < r.ID
  · have hle : ¬ r.ID ≤ 0 := not_le.mpr hid
    simp [dispatch, route, hid, hle]
  · have hle : r.ID ≤ 0 := not_lt.mp hid
    by_cases hm : r.Method = ""
    · simp [dispatch, route, hid, hle, hm]
    · have hm2 : ¬ "" = r.Method := fun h => hm h.symm
      simp [dispatch, route, hid, hle, hm, hm2]

/-! ## Correlation by id -/

/-- C5: with two commands registered under distinct ids, handling their two
responses in either order calls `Respond` on each command once with its own
response, leaves neither id registered and ends in the same socket state. -/
theorem handleResponse_comm (w : World) (ra rb : Response) (ca cb : Commander)
    (hab : ra.ID ≠ rb.ID)
    (ha : w.sock.commands.Get ra.ID = some ca)
    (hb : w.sock.commands.Get rb.ID = some cb) :
    (handleResponse (handleResponse w ra) rb).trace =
      w.trace ++ [Effect.respond ca ra, Effect.respond cb rb] ∧
    (handleResponse (handleResponse w rb) ra).trace =
      w.trace ++ [Effect.respond cb rb, Effect.respond ca ra] ∧
    (handleResponse (handleResponse w ra) rb).sock =
      (handleResponse (handleResponse w rb) ra).sock ∧
    (handleResponse (handleResponse w ra) rb).sock.commands.Get ra.ID = none ∧
    (handleResponse (handleResponse w ra) rb).sock.commands.Get rb.ID = none := by
  have hb2 : (handleResponse w ra).sock.commands.Get rb.ID = some cb := by
    rw [handleResponse_of_some ha]
    exact (CommandMap.Get_Delete_ne _ (Ne.symm hab)).trans hb
  have ha2 : (handleResponse w rb).sock.commands.Get ra.ID = some ca := by
    rw [handleResponse_of_some hb]
    exact (CommandMap.Get_Delete_ne _ hab).trans ha
  rw [handleResponse_of_some hb2, handleResponse_of_some ha2,
    handleResponse_of_some ha, handleResponse_of_some hb]
  refine ⟨by simp, by simp, ?_, ?_, ?_⟩
  · simp [CommandMap.Delete_comm]
  · show ((w.sock.commands.Delete ra.ID).Delete rb.ID).Get ra.ID = none
    rw [CommandMap.Delete_comm]
    exact CommandMap.Get_Delete_self _ _
  · exact CommandMap.Get_Delete_self _ _

theorem handleResponse_comm_witness :
    (worldWith [cmdFoo 1, cmdBaz 2]).sock.commands.Get (resultFor 1 "a").ID = some (cmdFoo 1) ∧
    (worldWith [cmdFoo 1, cmdBaz 2]).sock.commands.Get (resultFor 2 "b").ID = some (cmdBaz 2) ∧
    (handleResponse (handleResponse (worldWith [cmdFoo 1, cmdBaz 2]) (resultFor 2 "b"))
        (resultFor 1 "a")).trace =
      [Effect.respond (cmdBaz 2) (resultFor 2 "b"), Effect.respond (cmdFoo 1) (resultFor 1 "a")] :=
  ⟨by decide, by decide,
   (handleResponse_comm (worldWith [cmdFoo 1, cmdBaz 2]) (resultFor 1 "a") (resultFor 2 "b")
      (cmdFoo 1) (cmdBaz 2) (by decide) (by decide) (by decide)).2.1⟩

/-! ## Submitting a command -/

theorem respondCount_append (t u : List Effect) (c : Commander) :
    respondCount (t ++ u) c = respondCount t c + respondCount u c := by
  simp [respondCount, List.countP_append]

theorem writes_append (t u : List Effect) : writes (t ++ u) = writes t ++ writes u := by
  simp [writes, List.filterMap_append]

theorem Connect_frame (env : Env) (w : World) :
    (Connect env w).2.sock.commands = w.sock.commands ∧
    (Connect env w).2.sock.commandID = w.sock.commandID ∧
    writes (Connect env w).2.trace = writes w.trace ∧
    ∀ c, respondCount (Connect env w).2.trace c = respondCount w.trace c := by
  unfold Connect
  split
  · simp
  · split <;> simp [writes_append, respondCount_append, writes, respondCount]

theorem Connect_conn (env : Env) (w : World)
    (hconn : w.sock.connected = true → w.sock.conn ≠ none)
    (hok : (Connect env w).1 = none) : (Connect env w).2.sock.conn ≠ none := by
  unfold Connect at hok ⊢
  split
  · next h => exact hconn h
  · next h =>
    split
    · next e he => simp [h, he] at hok
    · simp

theorem WriteJSON_of_Connect_error {env : Env} {w : World} (v : Payload) {e : String}
    (h : (Connect env w).1 = some e) :
    WriteJSON env w v = .ok (some e, (Connect env w).2) := by
  unfold WriteJSON
  generalize Connect env w = r at h
  obtain ⟨r1, r2⟩ := r
  simp only at h
  subst h
  rfl

theorem WriteJSON_of_Connect_ok {env : Env} {w : World} (v : Payload) {c : Conn}
    (h : (Connect env w).1 = none) (hc : (Connect env w).2.sock.conn = some c) :
    WriteJSON env w v =
      .ok (env.connWriteJSON (Connect env w).2.trace c v,
        (Connect env w).2.emit (Effect.connWrite c v)) := by
  unfold WriteJSON
  generalize Connect env w = r at h hc
  obtain ⟨r1, r2⟩ := r
  simp only at h hc
  subst h
  simp [hc]

theorem WriteJSON_frame {env : Env} {w w1 : World} {v : Payload} {err : Option String}
    (h : WriteJSON env w v = .ok (err, w1)) :
    w1.sock.commands = w.sock.commands ∧
    w1.sock.commandID = w.sock.commandID ∧
    (∀ c, respondCount w1.trace c = respondCount w.trace c) ∧
    (((Connect env w).1 = none ∧ writes w1.trace = writes w.trace ++ [v]) ∨
      ((Connect env w).1 ≠ none ∧ err ≠ none ∧ writes w1.trace = writes w.trace)) := by
  obtain ⟨f1, f2, f3, f4⟩ := Connect_frame env w
  cases hc : (Connect env w).1 with
  | some e =>
    rw [WriteJSON_of_Connect_error v hc] at h
    simp only [Except.ok.injEq, Prod.mk.injEq] at h
    obtain ⟨h1, h2⟩ := h
    subst h1 h2
    exact ⟨f1, f2, f4, Or.inr ⟨by simp, by simp, f3⟩⟩
  | none =>
    cases hcc : (Connect env w).2.sock.conn with
    | none =>
      unfold WriteJSON at h
      generalize Connect env w = r at h hc hcc
      obtain ⟨r1, r2⟩ := r
      simp only at hc hcc
      subst hc
      simp [hcc] at h
    | some c =>
      rw [WriteJSON_of_Connect_ok v hc hcc] at h
      simp only [Except.ok.injEq, Prod.mk.injEq] at h
      obtain ⟨h1, h2⟩ := h
      subst h1 h2
      refine ⟨f1, f2, ?_, Or.inl ⟨rfl, ?_⟩⟩
      · intro c2
        show respondCount ((Connect env w).2.trace ++ [Effect.connWrite c v]) c2 = _
        rw [respondCount_append, f4]
        simp [respondCount]
      · show writes ((Connect env w).2.trace ++ [Effect.connWrite c v]) = _
        rw [writes_append, f3]
        simp [writes]

theorem WriteJSON_returns (env : Env) (w : World) (v : Payload)
    (hconn : w.sock.connected = true → w.sock.conn ≠ none) :
    ∃ err w1, WriteJSON env w v = .ok (err, w1) := by
  cases hc : (Connect env w).1 with
  | some e => exact ⟨_, _, WriteJSON_of_Connect_error v hc⟩
  | none =>
    cases hcc : (Connect env w).2.sock.conn with
    | none => exact absurd hcc (Connect_conn env w hconn hc)
    | some c => exact ⟨_, _, WriteJSON_of_Connect_ok v hc hcc⟩

theorem SendCommand_of_error {env : Env} {w w1 : World} {c : Commander} {e : String}
    (h : WriteJSON env w { ID := c.ID, Method := c.Method, Params := c.Params } =
      .ok (some e, w1)) :
    SendCommand env w c = .ok (c.Response, w1.emit (Effect.respond c (sendFailure e))) := by
  simp [SendCommand, h]

theorem SendCommand_of_ok {env : Env} {w w1 : World} {c : Commander}
    (h : WriteJSON env w { ID := c.ID, Method := c.Method, Params := c.Params } =
      .ok (none, w1)) :
    SendCommand env w c =
      .ok (c.Response,
        { w1 with sock := { w1.sock with commands := w1.sock.commands.Set c } }) := by
  simp [SendCommand, h]

/-- C6: when the write of the command's payload fails with error `e`,
`SendCommand` calls `Respond` on the command once, with an error response of
code 1, the fixed message and the quoted text of `e` as data, and the registry
is left as it was: the command is not stored. -/
theorem SendCommand_write_failure (env : Env) (w w1 : World) (c : Commander) (e : String)
    (hfail : WriteJSON env w { ID := c.ID, Method := c.Method, Params := c.Params } =
      .ok (some e, w1)) :
    SendCommand env w c = .ok (c.Response, w1.emit (Effect.respond c (sendFailure e))) ∧
    (w1.emit (Effect.respond c (sendFailure e))).trace =
      w1.trace ++ [Effect.respond c (sendFailure e)] ∧
    respondCount (w1.emit (Effect.respond c (sendFailure e))).trace c =
      respondCount w.trace c + 1 ∧
    (w1.emit (Effect.respond c (sendFailure e))).sock.commands = w.sock.commands ∧
    sendFailure e =
      { Error := some
          { Code := 1
            Data := "\"" ++ e ++ "\""
            Message := "Failed to send command payload to socket connection" }
        ID := 0, Method := "", Params := "", Result := "" } := by
  obtain ⟨f1, _, f3, _⟩ := WriteJSON_frame hfail
  refine ⟨SendCommand_of_error hfail, rfl, ?_, f1, rfl⟩
  show respondCount (w1.trace ++ [Effect.respond c (sendFailure e)]) c = _
  rw [respondCount_append, f3]
  simp [respondCount]

theorem SendCommand_write_failure_witness :
    WriteJSON envRefused (worldWith [])
        { ID := (cmdFoo 1).ID, Method := (cmdFoo 1).Method, Params := (cmdFoo 1).Params } =
      .ok (some "refused", refusedWorld) ∧
    SendCommand envRefused (worldWith []) (cmdFoo 1) =
      .ok ((cmdFoo 1).Response,
        refusedWorld.emit (Effect.respond (cmdFoo 1) (sendFailure "refused"))) :=
  ⟨rfl, (SendCommand_write_failure envRefused (worldWith []) refusedWorld (cmdFoo 1)
      "refused" rfl).1⟩

/-- C7: `SendCommand` returns the command's own channel after one
`WriteJSON` of the payload built from the command's id, method and params:
that payload, and nothing else, is put on the channel once (nothing is, when
no channel could be opened); when the write succeeds the command is stored
under its id and `Respond` is called on no command. -/
theorem SendCommand_writes_once (env : Env) (w : World) (c : Commander)
    (hconn : w.sock.connected = true → w.sock.conn ≠ none) :
    ∃ err w1 w2,
      WriteJSON env w { ID := c.ID, Method := c.Method, Params := c.Params } = .ok (err, w1) ∧
      SendCommand env w c = .ok (c.Response, w2) ∧
      writes w2.trace = writes w1.trace ∧
      (((Connect env w).1 = none ∧
          writes w2.trace =
            writes w.trace ++ [{ ID := c.ID, Method := c.Method, Params := c.Params }]) ∨
        ((Connect env w).1 ≠ none ∧ err ≠ none ∧ writes w2.trace = writes w.trace)) ∧
      (err = none →
        writes w2.trace =
          writes w.trace ++ [{ ID := c.ID, Method := c.Method, Params := c.Params }] ∧
        w2.sock.commands = w.sock.commands.Set c ∧
        w2.sock.commands.Get c.ID = some c ∧
        ∀ c2, respondCount w2.trace c2 = respondCount w.trace c2) := by
  obtain ⟨err, w1, hw⟩ :=
    WriteJSON_returns env w { ID := c.ID, Method := c.Method, Params := c.Params } hconn
  obtain ⟨f1, _, f3, f4⟩ := WriteJSON_frame hw
  cases err with
  | some e =>
    refine ⟨_, _, _, hw, SendCommand_of_error hw, ?_, ?_, ?_⟩
    · show writes (w1.trace ++ [Effect.respond c (sendFailure e)]) = _
      rw [writes_append]; simp [writes]
    · have hx : writes (w1.emit (Effect.respond c (sendFailure e))).trace = writes w1.trace := by
        show writes (w1.trace ++ [Effect.respond c (sendFailure e)]) = _
        rw [writes_append]; simp [writes]
      rw [hx]; exact f4
    · intro h; cases h
  | none =>
    refine ⟨_, _, _, hw, SendCommand_of_ok hw, rfl, f4, ?_⟩
    intro _
    rcases f4 with ⟨_, h4⟩ | ⟨_, h4, _⟩
    · refine ⟨h4, ?_, ?_, f3⟩
      · show w1.sock.commands.Set c = _
        rw [f1]
      · exact CommandMap.Get_Set_self _ _
    · exact absurd rfl h4

theorem SendCommand_writes_once_witness :
    ((worldWith []).sock.connected = true → (worldWith []).sock.conn ≠ none) ∧
    ∃ err w1 w2,
      WriteJSON (envReads 0) (worldWith [])
          { ID := (cmdFoo 1).ID, Method := (cmdFoo 1).Method, Params := (cmdFoo 1).Params } =
        .ok (err, w1) ∧
      SendCommand (envReads 0) (worldWith []) (cmdFoo 1) = .ok ((cmdFoo 1).Response, w2) ∧
      writes w2.trace = writes w1.trace :=
  ⟨by decide,
   (SendCommand_writes_once (envReads 0) (worldWith []) (cmdFoo 1) (by decide)).imp
     fun _ h => h.imp fun _ h => h.imp fun _ h => ⟨h.1, h.2.1, h.2.2.1⟩⟩

theorem SendCommand_commandID {env : Env} {w w2 : World} {c : Commander} {ch : Nat}
    (h : SendCommand env w c = .ok (ch, w2)) : CurCommandID w2 = CurCommandID w := by
  cases hw : WriteJSON env w { ID := c.ID, Method := c.Method, Params := c.Params } with
  | error f => simp [SendCommand, hw] at h
  | ok r =>
    obtain ⟨err, w1⟩ := r
    have hf := (WriteJSON_frame hw).2.1
    cases err with
    | some e =>
      rw [SendCommand_of_error hw] at h
      simp only [Except.ok.injEq, Prod.mk.injEq] at h
      rw [← h.2]
      exact hf
    | none =>
      rw [SendCommand_of_ok hw] at h
      simp only [Except.ok.injEq, Prod.mk.injEq] at h
      rw [← h.2]
      exact hf

/-- C8 at a concrete input: on a socket whose command counter is 0, sending a
command whose id is 7 leaves the counter at 0 and writes the payload with
id 7, the command's own id. -/
theorem SendCommand_keeps_counter :
    CurCommandID (worldWith []) = 0 ∧
    (SendCommand (envReads 0) (worldWith []) (cmdFoo 7)).map
        (fun r => (CurCommandID r.2, writes r.2.trace)) =
      .ok (0, [{ ID := 7, Method := "Foo.bar", Params := "" }]) :=
  ⟨rfl, rfl⟩

/-- C2 at a concrete input: a command with id 0 is submitted through
`SendCommand` and stored; `Listen` then reads two empty frames and a failing
read, and `Respond` has been called three times on that command, which is
still registered. -/
theorem idZeroRun_responds_thrice :
    idZeroRun.map
        (fun r => (respondCount r.2.trace (cmdFoo 0), r.2.sock.commands.Get 0)) =
      .ok (3, some (cmdFoo 0)) :=
  rfl

/-! ## Identifier generators -/

theorem wrapInt_of_lt {x : Int} (h0 : 0 ≤ x) (h1 : x < 2 ^ 63) : wrapInt x = x := by
  unfold wrapInt
  rw [Int.emod_eq_of_lt (by omega) (by omega)]
  omega

theorem wrapInt_overflow : wrapInt (2 ^ 63 - 1 + 1) = -2 ^ 63 := by
  decide

theorem afterNextCommandID_commandID (w : World) (h0 : w.sock.commandID = 0) (n : Nat)
    (hn : (n : Int) < 2 ^ 63) : (afterNextCommandID n w).sock.commandID = n := by
  induction n with
  | zero => simpa [afterNextCommandID] using h0
  | succ n ih =>
    have ih2 := ih (by push_cast at hn; omega)
    simp only [afterNextCommandID, NextCommandID, ih2]
    push_cast at hn ⊢
    exact wrapInt_of_lt (by omega) hn

theorem afterNextSocketID_counter (p : Process) (h0 : p.socketCounter = 0) (n : Nat)
    (hn : (n : Int) < 2 ^ 63) : (afterNextSocketID n p).socketCounter = n := by
  induction n with
  | zero => simpa [afterNextSocketID] using h0
  | succ n ih =>
    have ih2 := ih (by push_cast at hn; omega)
    simp only [afterNextSocketID, NextSocketID, ih2]
    push_cast at hn ⊢
    exact wrapInt_of_lt (by omega) hn

theorem map_set_same {α β : Type} (f : α → β) (l : List α) (i : Nat) (a b : α)
    (h : l.get? i = some a) (hf : f b = f a) : (l.set i b).map f = l.map f := by
  induction l generalizing i with
  | nil => simp
  | cons x xs ih =>
    cases i with
    | zero =>
      simp only [List.get?_cons_zero, Option.some.injEq] at h
      simp [List.set, hf, h]
    | succ i =>
      simp only [List.get?_cons_succ] at h
      simp [List.set, ih i h]

theorem New_sockets (p : Process) (url : String) :
    (New p url).2.socketCounter = wrapInt (p.socketCounter + 1) ∧
    (New p url).1 = freshSocket (wrapInt (p.socketCounter + 1)) url ∧
    (New p url).2.sockets = p.sockets ++ [freshSocket (wrapInt (p.socketCounter + 1)) url] := by
  simp [New, NextSocketID]

theorem Process.NextCommandID_frame (p : Process) (i : Nat) :
    (p.NextCommandID i).2.socketCounter = p.socketCounter ∧
    (p.NextCommandID i).2.socketIDs = p.socketIDs := by
  unfold Process.NextCommandID
  cases h : p.sockets.get? i with
  | none => simp
  | some w =>
    refine ⟨rfl, ?_⟩
    simp only [Process.socketIDs]
    exact map_set_same _ _ _ _ _ h rfl

theorem Process.step_inv (p : Process) (st : Step)
    (h0 : 0 ≤ p.socketCounter) (hb : p.socketCounter + 1 < 2 ^ 63)
    (hs : p.socketIDs.Pairwise (· < ·))
    (hle : ∀ x ∈ p.socketIDs, x ≤ p.socketCounter) :
    0 ≤ (p.step st).socketCounter ∧
    (p.step st).socketCounter ≤ p.socketCounter + 1 ∧
    (p.step st).socketIDs.Pairwise (· < ·) ∧
    ∀ x ∈ (p.step st).socketIDs, x ≤ (p.step st).socketCounter := by
  have hw : wrapInt (p.socketCounter + 1) = p.socketCounter + 1 :=
    wrapInt_of_lt (by omega) hb
  cases st with
  | new url =>
    obtain ⟨n1, _, n3⟩ := New_sockets p url
    have hids : (p.step (Step.new url)).socketIDs = p.socketIDs ++ [p.socketCounter + 1] := by
      simp [Process.step, Process.socketIDs, n3, freshSocket, hw]
    have hc : (p.step (Step.new url)).socketCounter = p.socketCounter + 1 := by
      simp [Process.step, n1, hw]
    rw [hids, hc]
    refine ⟨by omega, le_refl _, ?_, ?_⟩
    · rw [List.pairwise_append]
      refine ⟨hs, List.pairwise_singleton _ _, ?_⟩
      intro x hx y hy
      have := hle x hx
      simp only [List.mem_singleton] at hy
      omega
    · intro x hx
      rw [List.mem_append] at hx
      rcases hx with hx | hx
      · have := hle x hx
        omega
      · simp only [List.mem_singleton] at hx
        omega
  | nextSocketID =>
    have hc : (p.step Step.nextSocketID).socketCounter = p.socketCounter + 1 := by
      simp [Process.step, NextSocketID, hw]
    have hids : (p.step Step.nextSocketID).socketIDs = p.socketIDs := by
      simp [Process.step, NextSocketID, Process.socketIDs]
    rw [hids, hc]
    refine ⟨by omega, le_refl _, hs, ?_⟩
    intro x hx
    have := hle x hx
    omega
  | nextCommandID i =>
    obtain ⟨f1, f2⟩ := Process.NextCommandID_frame p i
    have hc : (p.step (Step.nextCommandID i)).socketCounter = p.socketCounter := f1
    have hids : (p.step (Step.nextCommandID i)).socketIDs = p.socketIDs := f2
    rw [hids, hc]
    exact ⟨h0, by omega, hs, hle⟩

theorem Process.run_inv (steps : List Step) (p : Process)
    (h0 : 0 ≤ p.socketCounter) (hb : p.socketCounter + steps.length < 2 ^ 63)
    (hs : p.socketIDs.Pairwise (· < ·))
    (hle : ∀ x ∈ p.socketIDs, x ≤ p.socketCounter) :
    (p.run steps).socketIDs.Pairwise (· < ·) := by
  induction steps generalizing p with
  | nil => simpa [Process.run] using hs
  | cons st steps ih =>
    have hlen : ((st :: steps).length : Int) = steps.length + 1 := by simp
    rw [hlen] at hb
    have hnn : (0 : Int) ≤ steps.length := Int.natCast_nonneg _
    obtain ⟨i1, i2, i3, i4⟩ := Process.step_inv p st h0 (by omega) hs hle
    have := ih (p.step st) i1 (by omega) i3 i4
    simpa [Process.run] using this

theorem NextCommandID_after (w : World) (h0 : w.sock.commandID = 0) (n : Nat)
    (hn : n + 1 < 2 ^ 63) :
    (NextCommandID (afterNextCommandID n w)).1 = (n : Int) + 1 ∧
    CurCommandID (NextCommandID (afterNextCommandID n w)).2 = (n : Int) + 1 := by
  have hn2 : ((n + 1 : Nat) : Int) < 2 ^ 63 := by exact_mod_cast hn
  have h := afterNextCommandID_commandID w h0 (n + 1) hn2
  simp only [afterNextCommandID] at h
  push_cast at h
  exact ⟨h, h⟩

/-- C9, as stated, fails: on a freshly built socket the call number `2^63`
of `NextCommandID` returns `-2^63`, not `2^63`. -/
theorem NextCommandID_wraps :
    (NextCommandID
        (afterNextCommandID (2 ^ 63 - 1) (freshSocket 1 "ws://localhost:9222"))).1 = -2 ^ 63 ∧
    (NextCommandID
        (afterNextCommandID (2 ^ 63 - 1) (freshSocket 1 "ws://localhost:9222"))).1 ≠ 2 ^ 63 := by
  have h := afterNextCommandID_commandID (freshSocket 1 "ws://localhost:9222") rfl
    (2 ^ 63 - 1) (by norm_num)
  have hv : (NextCommandID
      (afterNextCommandID (2 ^ 63 - 1) (freshSocket 1 "ws://localhost:9222"))).1 = -2 ^ 63 := by
    show wrapInt ((afterNextCommandID (2 ^ 63 - 1)
      (freshSocket 1 "ws://localhost:9222")).sock.commandID + 1) = -2 ^ 63
    rw [h]
    norm_num [wrapInt]
  refine ⟨hv, ?_⟩
  rw [hv]
  norm_num

/-- C9, amended: on a freshly built socket, as long as fewer than `2^63`
calls have been made, call number `n + 1` of `NextCommandID` returns `n + 1`
(the first call returns 1), which is greater than what every earlier call
returned, and `CurCommandID`, a read of the counter, returns that value
right after it. -/
theorem NextCommandID_kth (socketID : Int) (url : String) (n : Nat)
    (hn : n + 1 < 2 ^ 63) :
    (NextCommandID (afterNextCommandID n (freshSocket socketID url))).1 = (n : Int) + 1 ∧
    CurCommandID (NextCommandID (afterNextCommandID n (freshSocket socketID url))).2
      = (n : Int) + 1 ∧
    (NextCommandID (afterNextCommandID 0 (freshSocket socketID url))).1 = 1 ∧
    ∀ m, m < n →
      (NextCommandID (afterNextCommandID m (freshSocket socketID url))).1 <
        (NextCommandID (afterNextCommandID n (freshSocket socketID url))).1 := by
  obtain ⟨h1, h2⟩ := NextCommandID_after (freshSocket socketID url) rfl n hn
  refine ⟨h1, h2, ?_, ?_⟩
  · have := (NextCommandID_after (freshSocket socketID url) rfl 0 (by norm_num)).1
    simpa using this
  · intro m hm
    have hm2 := (NextCommandID_after (freshSocket socketID url) rfl m (by omega)).1
    rw [h1, hm2]
    exact_mod_cast Nat.succ_lt_succ hm

theorem NextCommandID_kth_witness :
    2 + 1 < 2 ^ 63 ∧
    (NextCommandID (afterNextCommandID 2 (freshSocket 1 "ws://localhost:9222"))).1
      = ((2 : Nat) : Int) + 1 :=
  ⟨by decide, (NextCommandID_kth 1 "ws://localhost:9222" 2 (by decide)).1⟩

/-- C10, as stated, fails: call number `2^63` of `NextSocketID` in a process
returns `-2^63`, not `2^63`. -/
theorem NextSocketID_wraps :
    (NextSocketID (afterNextSocketID (2 ^ 63 - 1) Process.start)).1 = -2 ^ 63 ∧
    (NextSocketID (afterNextSocketID (2 ^ 63 - 1) Process.start)).1 ≠ 2 ^ 63 := by
  have h := afterNextSocketID_counter Process.start rfl (2 ^ 63 - 1) (by norm_num)
  have hv : (NextSocketID (afterNextSocketID (2 ^ 63 - 1) Process.start)).1 = -2 ^ 63 := by
    show wrapInt ((afterNextSocketID (2 ^ 63 - 1) Process.start).socketCounter + 1) = -2 ^ 63
    rw [h]
    norm_num [wrapInt]
  refine ⟨hv, ?_⟩
  rw [hv]
  norm_num

/-- C10, amended: as long as fewer than `2^63` calls have been made in the
process, call number `n + 1` of `NextSocketID` returns `n + 1`; `New` takes
one value from `NextSocketID` for the socket it builds; after fewer than
`2^63` calls of `New`, `NextSocketID` and `NextCommandID` in any order the
sockets built have pairwise distinct ids; `NextCommandID` on a socket leaves
the instance counter as it is and `NextSocketID` leaves every socket as it
is. -/
theorem socketIDs_distinct (steps : List Step) (n : Nat)
    (hn : n + 1 < 2 ^ 63) (hsteps : steps.length < 2 ^ 63) :
    (NextSocketID (afterNextSocketID n Process.start)).1 = (n : Int) + 1 ∧
    (∀ p url,
      (New p url).1.sock.socketID = (NextSocketID p).1 ∧
      (New p url).2.socketCounter = (NextSocketID p).2.socketCounter ∧
      (New p url).2.sockets = p.sockets ++ [(New p url).1]) ∧
    (Process.start.run steps).socketIDs.Pairwise (· ≠ ·) ∧
    (∀ p i, (Process.NextCommandID p i).2.socketCounter = p.socketCounter) ∧
    (∀ p, (NextSocketID p).2.sockets = p.sockets) := by
  refine ⟨?_, ?_, ?_, ?_, ?_⟩
  · have hn2 : ((n + 1 : Nat) : Int) < 2 ^ 63 := by exact_mod_cast hn
    have h := afterNextSocketID_counter Process.start rfl (n + 1) hn2
    simp only [afterNextSocketID] at h
    push_cast at h
    exact h
  · intro p url
    obtain ⟨n1, n2, n3⟩ := New_sockets p url
    refine ⟨?_, ?_, ?_⟩
    · rw [n2]; rfl
    · rw [n1]; rfl
    · rw [n3, n2]
  · have hb : Process.start.socketCounter + (steps.length : Int) < 2 ^ 63 := by
      have : ((steps.length : Nat) : Int) < 2 ^ 63 := by exact_mod_cast hsteps
      simpa [Process.start] using this
    have h := Process.run_inv steps Process.start (le_refl _) hb
      (by simp [Process.start, Process.socketIDs])
      (by simp [Process.start, Process.socketIDs])
    exact h.imp (fun hlt => ne_of_lt hlt)
  · intro p i
    exact (Process.NextCommandID_frame p i).1
  · intro p
    rfl

theorem socketIDs_distinct_witness :
    0 + 1 < 2 ^ 63 ∧
    [Step.new "ws://a", Step.nextCommandID 0, Step.new "ws://b"].length < 2 ^ 63 ∧
    (Process.start.run
        [Step.new "ws://a", Step.nextCommandID 0, Step.new "ws://b"]).socketIDs.Pairwise
      (· ≠ ·) :=
  ⟨by decide, by decide,
   (socketIDs_distinct [Step.new "ws://a", Step.nextCommandID 0, Step.new "ws://b"] 0
      (by decide) (by decide)).2.2.1⟩

/-! ## Connection lifecycle -/

theorem Connect_of_connected {env : Env} {w : World} (hc : w.sock.connected = true) :
    Connect env w = (none, w) := by
  simp [Connect, hc]

theorem Connect_of_dial_ok {env : Env} {w : World} {c : Conn}
    (hc : w.sock.connected = false)
    (hd : env.newSocket w.trace w.sock.url = .ok c) :
    Connect env w =
      (none,
        { sock := { w.sock with conn := some c, connected := true },
          trace := w.trace ++ [Effect.dial w.sock.url] }) := by
  simp [Connect, hc, hd]

theorem Connect_of_dial_error {env : Env} {w : World} {e : String}
    (hc : w.sock.connected = false)
    (hd : env.newSocket w.trace w.sock.url = .error e) :
    Connect env w =
      (some e, { sock := w.sock, trace := w.trace ++ [Effect.dial w.sock.url] }) := by
  have hs : ({ w.sock with connected := false } : Socket) = w.sock := by
    cases hw : w.sock
    rw [hw] at hc
    simp only at hc
    subst hc
    rfl
  simp [Connect, hc, hd, hs]

theorem Connect_ok_connected (env : Env) (w : World) (hok : (Connect env w).1 = none) :
    (Connect env w).2.sock.connected = true := by
  cases hc : w.sock.connected with
  | true => rw [Connect_of_connected hc]; exact hc
  | false =>
    cases hd : env.newSocket w.trace w.sock.url with
    | error e => rw [Connect_of_dial_error hc hd] at hok; cases hok
    | ok c => rw [Connect_of_dial_ok hc hd]

theorem Connect_error_trace (env : Env) (w : World) {e : String}
    (herr : (Connect env w).1 = some e) :
    (Connect env w).2.trace = w.trace ++ [Effect.dial w.sock.url] ∧
    (Connect env w).2.sock = w.sock := by
  cases hc : w.sock.connected with
  | true => rw [Connect_of_connected hc] at herr; cases herr
  | false =>
    cases hd : env.newSocket w.trace w.sock.url with
    | error e2 => rw [Connect_of_dial_error hc hd]; exact ⟨rfl, rfl⟩
    | ok c => rw [Connect_of_dial_ok hc hd] at herr; cases herr

theorem ReadJSON_of_Connect_error {env : Env} {w : World} (v : Option Response) {e : String}
    (h : (Connect env w).1 = some e) :
    ReadJSON env w v = .ok ((v, some e), (Connect env w).2) := by
  unfold ReadJSON
  generalize Connect env w = r at h
  obtain ⟨r1, r2⟩ := r
  simp only at h
  subst h
  rfl

theorem ReadJSON_of_Connect_ok {env : Env} {w : World} (v : Option Response) {c : Conn}
    (h : (Connect env w).1 = none) (hc : (Connect env w).2.sock.conn = some c) :
    ReadJSON env w v =
      .ok (env.connReadJSON (Connect env w).2.trace c,
        (Connect env w).2.emit (Effect.connRead c)) := by
  unfold ReadJSON
  generalize Connect env w = r at h hc
  obtain ⟨r1, r2⟩ := r
  simp only at h hc
  subst h
  simp [hc]

/-- C11: on a connected socket `Connect` returns nil without calling the
channel factory and leaves the whole state, `conn` and `connected` included,
as it was; hence a `Connect` that follows a successful `Connect` returns nil
and changes nothing. -/
theorem Connect_idempotent (env : Env) (w : World) (hc : w.sock.connected = true) :
    Connect env w = (none, w) ∧
    (Connect env w).2.trace = w.trace ∧
    (Connect env w).2.sock.conn = w.sock.conn ∧
    (Connect env w).2.sock.connected = w.sock.connected ∧
    ∀ w0, (Connect env w0).1 = none →
      Connect env (Connect env w0).2 = (none, (Connect env w0).2) := by
  have h : Connect env w = (none, w) := Connect_of_connected hc
  refine ⟨h, ?_, ?_, ?_, ?_⟩
  · rw [h]
  · rw [h]
  · rw [h]
  · intro w0 h0
    exact Connect_of_connected (Connect_ok_connected env w0 h0)

theorem Connect_idempotent_witness :
    connectedWorld.sock.connected = true ∧
    Connect envRefused connectedWorld = (none, connectedWorld) :=
  ⟨by decide, (Connect_idempotent envRefused connectedWorld (by decide)).1⟩

/-- C12: on a socket that is not connected `Connect` calls the channel
factory once, with the configured URL; when the factory returns a channel
the result is nil, `conn` is that channel and `connected` is true; when it
fails with `e` the result is `e` and no field of the socket changes;
`connected` is true afterwards exactly when the factory succeeded. -/
theorem Connect_not_connected (env : Env) (w : World) (hc : w.sock.connected = false) :
    (Connect env w).2.trace = w.trace ++ [Effect.dial w.sock.url] ∧
    (∀ c, env.newSocket w.trace w.sock.url = .ok c →
      Connect env w =
        (none,
          { sock := { w.sock with conn := some c, connected := true },
            trace := w.trace ++ [Effect.dial w.sock.url] })) ∧
    (∀ e, env.newSocket w.trace w.sock.url = .error e →
      Connect env w =
        (some e, { sock := w.sock, trace := w.trace ++ [Effect.dial w.sock.url] })) ∧
    ((Connect env w).2.sock.connected = true ↔
      ∃ c, env.newSocket w.trace w.sock.url = .ok c) ∧
    ((Connect env w).1 = none ↔ ∃ c, env.newSocket w.trace w.sock.url = .ok c) := by
  refine ⟨?_, fun c hd => Connect_of_dial_ok hc hd, fun e hd => Connect_of_dial_error hc hd,
    ?_, ?_⟩
  all_goals
    cases hd : env.newSocket w.trace w.sock.url with
    | error e => simp [Connect_of_dial_error hc hd, hc]
    | ok c => simp [Connect_of_dial_ok hc hd]

theorem Connect_not_connected_witness :
    (worldWith []).sock.connected = false ∧
    (Connect (envReads 0) (worldWith [])).2.trace =
      (worldWith []).trace ++ [Effect.dial (worldWith []).sock.url] :=
  ⟨by decide, (Connect_not_connected (envReads 0) (worldWith []) (by decide)).1⟩

/-- C13: on a socket that is not connected `Disconnect` returns a non-nil
error, calls `Close` on no channel and leaves every field, and the trace, as
they were. -/
theorem Disconnect_not_connected (env : Env) (w : World) (hc : w.sock.connected = false) :
    Disconnect env w = .ok (some "Could not disconnect (no connection exists)", w) ∧
    ∀ r w1, Disconnect env w = .ok (r, w1) → r ≠ none ∧ w1.sock = w.sock ∧ w1.trace = w.trace := by
  have h : Disconnect env w = .ok (some "Could not disconnect (no connection exists)", w) := by
    simp [Disconnect, hc]
  refine ⟨h, ?_⟩
  intro r w1 h1
  rw [h] at h1
  simp only [Except.ok.injEq, Prod.mk.injEq] at h1
  obtain ⟨hr, hw⟩ := h1
  subst hr hw
  simp

theorem Disconnect_not_connected_witness :
    (worldWith []).sock.connected = false ∧
    Disconnect envCloseFails (worldWith []) =
      .ok (some "Could not disconnect (no connection exists)", worldWith []) :=
  ⟨by decide, (Disconnect_not_connected envCloseFails (worldWith []) (by decide)).1⟩

theorem Disconnect_of_connected {env : Env} {w : World} {c : Conn}
    (hc : w.sock.connected = true) (hconn : w.sock.conn = some c) :
    Disconnect env w =
      .ok (env.connClose w.trace c,
        { sock := { w.sock with conn := none, connected := false },
          trace := w.trace ++ [Effect.connClose c] }) := by
  simp [Disconnect, hc, hconn]

/-- C14: on a connected socket whose channel is `c`, `Disconnect` calls
`Close` on `c` once, returns what `Close` returned, and leaves `connected`
false and `conn` cleared whether or not `Close` failed. -/
theorem Disconnect_connected (env : Env) (w : World) (c : Conn)
    (hc : w.sock.connected = true) (hconn : w.sock.conn = some c) :
    Disconnect env w =
      .ok (env.connClose w.trace c,
        { sock := { w.sock with conn := none, connected := false },
          trace := w.trace ++ [Effect.connClose c] }) ∧
    ∀ r w1, Disconnect env w = .ok (r, w1) →
      r = env.connClose w.trace c ∧ Connected w1 = false ∧ w1.sock.conn = none ∧
      w1.trace = w.trace ++ [Effect.connClose c] := by
  have h := @Disconnect_of_connected env w c hc hconn
  refine ⟨h, ?_⟩
  intro r w1 h1
  rw [h] at h1
  simp only [Except.ok.injEq, Prod.mk.injEq] at h1
  obtain ⟨hr, hw⟩ := h1
  subst hr hw
  simp [Connected]

theorem Disconnect_connected_witness :
    connectedWorld.sock.connected = true ∧ connectedWorld.sock.conn = some 1 ∧
    Disconnect envCloseFails connectedWorld =
      .ok (some "broken pipe",
        { sock := { connectedWorld.sock with conn := none, connected := false },
          trace := connectedWorld.trace ++ [Effect.connClose 1] }) :=
  ⟨by decide, by decide,
   (Disconnect_connected envCloseFails connectedWorld 1 (by decide) (by decide)).1⟩

theorem WriteJSON_of_connected {env : Env} {w : World} (v : Payload) {c : Conn}
    (hc : w.sock.connected = true) (hconn : w.sock.conn = some c) :
    WriteJSON env w v = .ok (env.connWriteJSON w.trace c v, w.emit (Effect.connWrite c v)) := by
  have h : Connect env w = (none, w) := Connect_of_connected hc
  have h2 := @WriteJSON_of_Connect_ok env w v c
    (by rw [h]) (by rw [h]; exact hconn)
  rw [h] at h2
  exact h2

theorem ReadJSON_of_connected {env : Env} {w : World} (v : Option Response) {c : Conn}
    (hc : w.sock.connected = true) (hconn : w.sock.conn = some c) :
    ReadJSON env w v = .ok (env.connReadJSON w.trace c, w.emit (Effect.connRead c)) := by
  have h : Connect env w = (none, w) := Connect_of_connected hc
  have h2 := @ReadJSON_of_Connect_ok env w v c
    (by rw [h]) (by rw [h]; exact hconn)
  rw [h] at h2
  exact h2

/-- C15: on a connected socket whose channel is `c`, `Disconnect` followed by
a `Connect` for which the factory returns the channel `c2` ends connected
with `conn = c2`, and the next `WriteJSON` and the next `ReadJSON` are one
write, one read, on `c2`. -/
theorem Disconnect_then_Connect (env : Env) (w : World) (c c2 : Conn)
    (v : Payload) (rv : Option Response)
    (hc : w.sock.connected = true) (hconn : w.sock.conn = some c)
    (hdial : env.newSocket (w.trace ++ [Effect.connClose c]) w.sock.url = .ok c2) :
    ∃ r w1,
      Disconnect env w = .ok (r, w1) ∧
      (Connect env w1).1 = none ∧
      (Connect env w1).2.sock.connected = true ∧
      (Connect env w1).2.sock.conn = some c2 ∧
      (Connect env w1).2.trace =
        w.trace ++ [Effect.connClose c] ++ [Effect.dial w.sock.url] ∧
      WriteJSON env (Connect env w1).2 v =
        .ok (env.connWriteJSON (Connect env w1).2.trace c2 v,
          (Connect env w1).2.emit (Effect.connWrite c2 v)) ∧
      ReadJSON env (Connect env w1).2 rv =
        .ok (env.connReadJSON (Connect env w1).2.trace c2,
          (Connect env w1).2.emit (Effect.connRead c2)) := by
  have hd := @Disconnect_of_connected env w c hc hconn
  refine ⟨_, _, hd, ?_⟩
  have hk := @Connect_of_dial_ok env
    { sock := { w.sock with conn := none, connected := false },
      trace := w.trace ++ [Effect.connClose c] } c2 rfl hdial
  rw [hk]
  exact ⟨rfl, rfl, rfl, rfl, WriteJSON_of_connected v rfl rfl, ReadJSON_of_connected rv rfl rfl⟩

theorem Disconnect_then_Connect_witness :
    connectedWorld.sock.connected = true ∧ connectedWorld.sock.conn = some 1 ∧
    envCloseFails.newSocket (connectedWorld.trace ++ [Effect.connClose 1])
      connectedWorld.sock.url = .ok 2 ∧
    ∃ r w1,
      Disconnect envCloseFails connectedWorld = .ok (r, w1) ∧
      (Connect envCloseFails w1).1 = none ∧
      (Connect envCloseFails w1).2.sock.connected = true ∧
      (Connect envCloseFails w1).2.sock.conn = some 2 :=
  ⟨by decide, by decide, rfl,
   (Disconnect_then_Connect envCloseFails connectedWorld 1 2
      { ID := 1, Method := "Foo.bar", Params := "" } (some Response.zero)
      (by decide) (by decide) rfl).imp
     fun _ h => h.imp fun _ h => ⟨h.1, h.2.1, h.2.2.1, h.2.2.2.1⟩⟩

/-- C16: `ReadJSON` and `WriteJSON` begin with `Connect`. When it fails with
`e` they return `e` and the only thing done is the one call of the factory:
no read, no write. When it succeeds (the socket was connected or the factory
gave a channel) they do one read, one write, on the socket's channel, return
its result and leave the socket connected. -/
theorem lazy_connect (env : Env) (w : World) (v : Payload) (rv : Option Response)
    (hinv : w.sock.connected = true → w.sock.conn ≠ none) :
    (∀ e, (Connect env w).1 = some e →
      ReadJSON env w rv = .ok ((rv, some e), (Connect env w).2) ∧
      WriteJSON env w v = .ok (some e, (Connect env w).2) ∧
      (Connect env w).2.trace = w.trace ++ [Effect.dial w.sock.url] ∧
      (Connect env w).2.sock = w.sock) ∧
    ((Connect env w).1 = none →
      ∃ c, (Connect env w).2.sock.conn = some c ∧
        ReadJSON env w rv =
          .ok (env.connReadJSON (Connect env w).2.trace c,
            (Connect env w).2.emit (Effect.connRead c)) ∧
        WriteJSON env w v =
          .ok (env.connWriteJSON (Connect env w).2.trace c v,
            (Connect env w).2.emit (Effect.connWrite c v)) ∧
        ((Connect env w).2.emit (Effect.connRead c)).sock.connected = true ∧
        ((Connect env w).2.emit (Effect.connWrite c v)).sock.connected = true) := by
  refine ⟨?_, ?_⟩
  · intro e he
    obtain ⟨t1, t2⟩ := Connect_error_trace env w he
    exact ⟨ReadJSON_of_Connect_error rv he, WriteJSON_of_Connect_error v he, t1, t2⟩
  · intro hok
    cases hcc : (Connect env w).2.sock.conn with
    | none => exact absurd hcc (Connect_conn env w hinv hok)
    | some c =>
      exact ⟨c, rfl, ReadJSON_of_Connect_ok rv hok hcc, WriteJSON_of_Connect_ok v hok hcc,
        Connect_ok_connected env w hok, Connect_ok_connected env w hok⟩

theorem lazy_connect_witness :
    ((worldWith []).sock.connected = true → (worldWith []).sock.conn ≠ none) ∧
    (Connect envRefused (worldWith [])).1 = some "refused" ∧
    ReadJSON envRefused (worldWith []) (some Response.zero) =
      .ok ((some Response.zero, some "refused"), (Connect envRefused (worldWith [])).2) ∧
    WriteJSON envRefused (worldWith []) { ID := 1, Method := "Foo.bar", Params := "" } =
      .ok (some "refused", (Connect envRefused (worldWith [])).2) ∧
    (Connect envRefused (worldWith [])).2.trace =
      (worldWith []).trace ++ [Effect.dial (worldWith []).sock.url] ∧
    (Connect envRefused (worldWith [])).2.sock = (worldWith []).sock :=
  ⟨by decide, rfl,
   (lazy_connect envRefused (worldWith []) { ID := 1, Method := "Foo.bar", Params := "" }
      (some Response.zero) (by decide)).1 "refused" rfl⟩

/-! ## The event-handler registry -/

theorem EventHandlerMap.Get_Set_name (m : EventHandlerMap) (name : String)
    (hs : List EventHandler) : (m.Set name hs).Get name = some hs := by
  simp [EventHandlerMap.Get, EventHandlerMap.Set]

theorem EventHandlerMap.Get_Set_other (m : EventHandlerMap) {name other : String}
    (hs : List EventHandler) (hne : other ≠ name) :
    (m.Set name hs).Get other = m.Get other := by
  have h1 : (name == other) = false := by
    simp only [beq_eq_false_iff_ne]
    exact fun h => hne h.symm
  have h2 : (fun a : String × List EventHandler =>
      decide ((a.1 != name) = true ∧ (a.1 == other) = true)) = fun e => e.1 == other := by
    funext e
    by_cases he : e.1 = other
    · simp [he, hne]
    · simp [he]
  simp only [EventHandlerMap.Get, EventHandlerMap.Set, List.find?_cons, h1, List.find?_filter]
  rw [h2]

theorem removeScan_spec (handler : EventHandler) (rest pre : List EventHandler)
    (hpre : handler ∉ pre) :
    removeScan handler (pre ++ rest) rest pre.length =
      if handler ∈ rest then some (pre ++ rest.erase handler) else none := by
  induction rest generalizing pre with
  | nil => simp [removeScan]
  | cons x xs ih =>
    by_cases hx : x = handler
    · subst hx
      simp [removeScan, List.take_append_eq_append_take, List.drop_append_eq_append_drop]
    · have hpre2 : handler ∉ pre ++ [x] := by
        simp only [List.mem_append, List.mem_singleton, not_or]
        exact ⟨hpre, fun h => hx h.symm⟩
      have ih2 := ih (pre ++ [x]) hpre2
      simp only [List.append_assoc, List.singleton_append, List.length_append,
        List.length_singleton] at ih2
      have hx2 : ¬ handler = x := fun h => hx h.symm
      simp only [removeScan, hx, if_false, ih2, List.mem_cons, hx2, false_or]
      have he : (x :: xs).erase handler = x :: xs.erase handler := by
        rw [List.erase_cons]
        simp [hx]
      rw [he]

theorem removeScan_eq (handler : EventHandler) (hs : List EventHandler) :
    removeScan handler hs hs 0 =
      if handler ∈ hs then some (hs.erase handler) else none := by
  have := removeScan_spec handler hs [] (by simp)
  simpa using this

theorem RemoveEventHandler_of_mem {w : World} {h : EventHandler} {hs : List EventHandler}
    (hget : w.sock.handlers.Get h.Name = some hs) (hmem : h ∈ hs) :
    RemoveEventHandler w h =
      (none,
        { w with sock :=
            { w.sock with handlers := w.sock.handlers.Set h.Name (hs.erase h) } }) := by
  simp [RemoveEventHandler, hget, removeScan_eq, hmem]

theorem RemoveEventHandler_of_not_mem {w : World} {h : EventHandler} {hs : List EventHandler}
    (hget : w.sock.handlers.Get h.Name = some hs) (hmem : h ∉ hs) :
    RemoveEventHandler w h = (none, w) := by
  simp [RemoveEventHandler, hget, removeScan_eq, hmem]

theorem RemoveEventHandler_of_none {w : World} {h : EventHandler}
    (hget : w.sock.handlers.Get h.Name = none) :
    RemoveEventHandler w h = (some (EventHandlerMap.notFound h.Name), w) := by
  simp [RemoveEventHandler, hget]

/-- C17: when the collection registered for the handler's method name
contains the handler, `RemoveEventHandler` returns nil and stores for that
name the collection without the first occurrence of the handler: what stood
before it and what stood after it, in the same order. The collections of
other method names and the rest of the state are as before. -/
theorem RemoveEventHandler_found (w : World) (h : EventHandler) (hs : List EventHandler)
    (hget : w.sock.handlers.Get h.Name = some hs) (hmem : h ∈ hs) :
    (RemoveEventHandler w h).1 = none ∧
    (RemoveEventHandler w h).2 =
      { w with sock :=
          { w.sock with handlers := w.sock.handlers.Set h.Name (hs.erase h) } } ∧
    (RemoveEventHandler w h).2.sock.handlers.Get h.Name = some (hs.erase h) ∧
    (∃ pre post, h ∉ pre ∧ hs = pre ++ h :: post ∧ hs.erase h = pre ++ post) ∧
    ∀ name, name ≠ h.Name →
      (RemoveEventHandler w h).2.sock.handlers.Get name = w.sock.handlers.Get name := by
  rw [RemoveEventHandler_of_mem hget hmem]
  refine ⟨rfl, rfl, EventHandlerMap.Get_Set_name _ _ _, List.exists_erase_eq hmem, ?_⟩
  intro name hne
  exact EventHandlerMap.Get_Set_other _ _ hne

theorem RemoveEventHandler_found_witness :
    (worldHandlers [("Foo.changed", [onChanged2, onChanged1, onChanged2, onChanged1]),
        ("Bar.added", [onAdded])]).sock.handlers.Get onChanged1.Name =
      some [onChanged2, onChanged1, onChanged2, onChanged1] ∧
    onChanged1 ∈ [onChanged2, onChanged1, onChanged2, onChanged1] ∧
    (RemoveEventHandler
        (worldHandlers [("Foo.changed", [onChanged2, onChanged1, onChanged2, onChanged1]),
          ("Bar.added", [onAdded])]) onChanged1).2.sock.handlers.Get onChanged1.Name =
      some ([onChanged2, onChanged1, onChanged2, onChanged1].erase onChanged1) :=
  ⟨by decide, by decide,
   (RemoveEventHandler_found
      (worldHandlers [("Foo.changed", [onChanged2, onChanged1, onChanged2, onChanged1]),
        ("Bar.added", [onAdded])]) onChanged1 [onChanged2, onChanged1, onChanged2, onChanged1]
      (by decide) (by decide)).2.2.1⟩

/-- C18 at a concrete input: with a collection for `Foo.changed` that holds
one listener, removing another listener of `Foo.changed` returns nil; with
no collection for `Bar.added`, removing a listener of `Bar.added` returns an
error. -/
theorem RemoveEventHandler_absent_returns_nil :
    (worldHandlers [("Foo.changed", [onChanged1])]).sock.handlers.Get onChanged2.Name =
      some [onChanged1] ∧
    onChanged2 ∉ [onChanged1] ∧
    (RemoveEventHandler (worldHandlers [("Foo.changed", [onChanged1])]) onChanged2).1 = none ∧
    (RemoveEventHandler (worldHandlers [("Foo.changed", [onChanged1])]) onAdded).1 ≠ none := by
  decide

/-- C19: when the handler is not registered (its method name has no
collection, or the collection does not contain it) `RemoveEventHandler`
leaves the state as it was: the registry is the same, so every method name
has the same listeners in the same order. -/
theorem RemoveEventHandler_not_registered (w : World) (h : EventHandler)
    (hnot : ∀ hs, w.sock.handlers.Get h.Name = some hs → h ∉ hs) :
    (RemoveEventHandler w h).2 = w ∧
    (RemoveEventHandler w h).2.sock.handlers = w.sock.handlers ∧
    ∀ name, (RemoveEventHandler w h).2.sock.handlers.Get name = w.sock.handlers.Get name := by
  have heq : (RemoveEventHandler w h).2 = w := by
    cases hget : w.sock.handlers.Get h.Name with
    | none => rw [RemoveEventHandler_of_none hget]
    | some hs => rw [RemoveEventHandler_of_not_mem hget (hnot hs hget)]
  refine ⟨heq, ?_, ?_⟩
  · rw [heq]
  · intro name
    rw [heq]

theorem RemoveEventHandler_not_registered_witness :
    (∀ hs, (worldHandlers [("Foo.changed", [onChanged1])]).sock.handlers.Get onChanged2.Name =
        some hs → onChanged2 ∉ hs) ∧
    (RemoveEventHandler (worldHandlers [("Foo.changed", [onChanged1])]) onChanged2).2 =
      worldHandlers [("Foo.changed", [onChanged1])] :=
  ⟨fun hs hget => by
    have h2 : some [onChanged1] = some hs := hget
    cases h2
    decide,
   (RemoveEventHandler_not_registered (worldHandlers [("Foo.changed", [onChanged1])])
      onChanged2 (fun hs hget => by
        have h2 : some [onChanged1] = some hs := hget
        cases h2
        decide)).1⟩

/-! ## Events -/

/-- C20: for an event with method `M`, `handleEvent` starts `Handle` once
for each entry of the collection registered for `M`, in its order and with
that envelope, and starts nothing else; with no collection for `M` it starts
nothing. The socket, both registries included, is as before. -/
theorem handleEvent_fanout (w : World) (r : Response) :
    (handleEvent w r).sock = w.sock ∧
    (handleEvent w r).trace =
      w.trace ++
        ((w.sock.handlers.Get r.Method).getD []).map (fun h => Effect.handle h r) ∧
    handled (handleEvent w r).trace =
      handled w.trace ++ ((w.sock.handlers.Get r.Method).getD []).map (fun h => (h, r)) ∧
    (∀ c, respondCount (handleEvent w r).trace c = respondCount w.trace c) ∧
    ∀ h r2, (h, r2) ∈ ((w.sock.handlers.Get r.Method).getD []).map (fun h => (h, r)) ↔
      (h ∈ (w.sock.handlers.Get r.Method).getD [] ∧ r2 = r) := by
  have ht : (handleEvent w r).trace =
      w.trace ++
        ((w.sock.handlers.Get r.Method).getD []).map (fun h => Effect.handle h r) := by
    unfold handleEvent
    cases w.sock.handlers.Get r.Method <;> simp
  refine ⟨?_, ht, ?_, ?_, ?_⟩
  · unfold handleEvent
    cases w.sock.handlers.Get r.Method <;> rfl
  · rw [ht]
    simp only [handled, List.filterMap_append, List.filterMap_map, Function.comp_def]
    congr 1
    generalize (w.sock.handlers.Get r.Method).getD [] = hs
    induction hs with
    | nil => rfl
    | cons x xs ih => simp [List.filterMap_cons, ih]
  · intro c
    rw [ht, respondCount_append]
    have : respondCount
        (((w.sock.handlers.Get r.Method).getD []).map (fun h => Effect.handle h r)) c = 0 := by
      simp [respondCount, List.countP_eq_zero]
    omega
  · intro h r2
    simp only [List.mem_map, Prod.mk.injEq]
    constructor
    · rintro ⟨a, ha, rfl, rfl⟩
      exact ⟨ha, rfl⟩
    · rintro ⟨ha, rfl⟩
      exact ⟨h, ha, rfl, rfl⟩

/-! ## A connected socket has a channel -/

theorem freshSocket_has_channel (socketID : Int) (url : String) :
    (freshSocket socketID url).sock.connected = true →
      (freshSocket socketID url).sock.conn ≠ none := by
  intro h
  cases h

theorem Connect_has_channel (env : Env) (w : World)
    (hinv : w.sock.connected = true → w.sock.conn ≠ none) :
    (Connect env w).2.sock.connected = true → (Connect env w).2.sock.conn ≠ none := by
  cases hc : w.sock.connected with
  | true => rw [Connect_of_connected hc]; exact hinv
  | false =>
    cases hd : env.newSocket w.trace w.sock.url with
    | error e => rw [Connect_of_dial_error hc hd]; intro h; rw [hc] at h; cases h
    | ok c => rw [Connect_of_dial_ok hc hd]; intro _; simp

theorem Disconnect_has_channel (env : Env) (w w1 : World) (r : Option String)
    (hinv : w.sock.connected = true → w.sock.conn ≠ none)
    (hd : Disconnect env w = .ok (r, w1)) :
    w1.sock.connected = true → w1.sock.conn ≠ none := by
  cases hc : w.sock.connected with
  | false =>
    have h : Disconnect env w = .ok (some "Could not disconnect (no connection exists)", w) := by
      simp [Disconnect, hc]
    rw [h] at hd
    simp only [Except.ok.injEq, Prod.mk.injEq] at hd
    rw [← hd.2]
    exact hinv
  | true =>
    cases hconn : w.sock.conn with
    | none => exact absurd hconn (hinv hc)
    | some c =>
      rw [Disconnect_of_connected hc hconn] at hd
      simp only [Except.ok.injEq, Prod.mk.injEq] at hd
      rw [← hd.2]
      intro h
      cases h

/-! ## The read loop -/

theorem readCount_append (t u : List Effect) :
    readCount (t ++ u) = readCount t + readCount u := by
  simp [readCount, List.countP_append]

theorem handleResponse_keeps (w : World) (r : Response) :
    (handleResponse w r).sock.stopListening = w.sock.stopListening ∧
    (handleResponse w r).sock.connected = w.sock.connected ∧
    (handleResponse w r).sock.conn = w.sock.conn ∧
    (handleResponse w r).sock.handlers = w.sock.handlers ∧
    readCount (handleResponse w r).trace = readCount w.trace ∧
    handled (handleResponse w r).trace = handled w.trace := by
  cases h : w.sock.commands.Get r.ID with
  | none => rw [handleResponse_of_none h]; simp
  | some c =>
    rw [handleResponse_of_some h]
    simp [readCount, handled, List.countP_append, List.filterMap_append]

theorem handleUnknown_of_some {w : World} {r : Response} {c : Commander}
    (h : w.sock.commands.Get 0 = some c) :
    handleUnknown w r = w.emit (Effect.respond c r) := by
  simp [handleUnknown, h]

theorem handleUnknown_of_none {w : World} {r : Response}
    (h : w.sock.commands.Get 0 = none) : handleUnknown w r = w := by
  simp [handleUnknown, h]

theorem handleUnknown_keeps (w : World) (r : Response) :
    (handleUnknown w r).sock = w.sock ∧
    readCount (handleUnknown w r).trace = readCount w.trace ∧
    handled (handleUnknown w r).trace = handled w.trace := by
  cases h : w.sock.commands.Get 0 with
  | none => rw [handleUnknown_of_none h]; simp
  | some c =>
    rw [handleUnknown_of_some h]
    simp [World.emit, readCount, handled, List.countP_append, List.filterMap_append]

theorem handleEvent_keeps (w : World) (r : Response) :
    (handleEvent w r).sock = w.sock ∧
    readCount (handleEvent w r).trace = readCount w.trace := by
  unfold handleEvent
  cases w.sock.handlers.Get r.Method with
  | none => simp
  | some hs =>
    refine ⟨rfl, ?_⟩
    simp only [readCount_append]
    have : readCount (List.map (fun event => Effect.handle event r) hs) = 0 := by
      simp [readCount, List.countP_eq_zero]
    omega

theorem dispatch_keeps (w : World) (r : Response) :
    (dispatch w r).sock.stopListening = w.sock.stopListening ∧
    (dispatch w r).sock.connected = w.sock.connected ∧
    (dispatch w r).sock.conn = w.sock.conn ∧
    (dispatch w r).sock.handlers = w.sock.handlers ∧
    readCount (dispatch w r).trace = readCount w.trace := by
  unfold dispatch
  cases route r with
  | response =>
    obtain ⟨h1, h2, h3, h4, h5, _⟩ := handleResponse_keeps w r
    exact ⟨h1, h2, h3, h4, h5⟩
  | event =>
    obtain ⟨h1, h2⟩ := handleEvent_keeps w r
    simp only [h1, h2, and_self]
  | unknown =>
    obtain ⟨h1, h2, _⟩ := handleUnknown_keeps w (withUnknownError r)
    simp only [h1, h2, and_self]

theorem route_of_malformed {r : Response} (hid : r.ID ≤ 0) (hm : r.Method = "") :
    route r = Route.unknown := by
  have h : ¬ r.ID > 0 := not_lt.mpr hid
  simp [route, h, hm]

theorem listenIter_of_read {env : Env} {w wr : World} {r : Response} {err : Option String}
    (hread : ReadJSON env w (some Response.zero) = .ok ((some r, err), wr)) :
    listenIter env w = .ok (err, dispatch (if err.isSome then Stop wr else wr) r) := by
  simp [listenIter, hread]

theorem listenIter_of_nil {env : Env} {w wr : World} {err : Option String}
    (hread : ReadJSON env w (some Response.zero) = .ok ((none, err), wr)) :
    listenIter env w = .error Fault.nilDeref := by
  simp [listenIter, hread]

theorem listenLoop_of_stop {env : Env} {w w1 : World} {err : Option String} (fuel : Nat)
    (hiter : listenIter env w = .ok (err, w1)) (hstop : w1.sock.stopListening = true) :
    listenLoop env (fuel + 1) w = .ok (err, w1) := by
  simp [listenLoop, hiter, hstop]

theorem ReadJSON_has_channel {env : Env} {w w1 : World} {v : Option Response}
    {x : Option Response × Option String} (hread : ReadJSON env w v = .ok (x, w1)) :
    (w1.sock.connected = true → w1.sock.conn ≠ none) ∧
    w1.sock.stopListening = w.sock.stopListening ∧
    readCount w1.trace ≤ readCount w.trace + 1 := by
  cases hc : (Connect env w).1 with
  | some e =>
    obtain ⟨t1, t2⟩ := Connect_error_trace env w hc
    rw [ReadJSON_of_Connect_error v hc] at hread
    simp only [Except.ok.injEq, Prod.mk.injEq] at hread
    rw [← hread.2, t2, t1, readCount_append]
    have hnc : w.sock.connected = false := by
      cases hcc : w.sock.connected with
      | false => rfl
      | true => rw [Connect_of_connected hcc] at hc; cases hc
    refine ⟨fun h => ?_, rfl, ?_⟩
    · rw [hnc] at h; cases h
    · simp [readCount]
  | none =>
    cases hcc : (Connect env w).2.sock.conn with
    | none =>
      unfold ReadJSON at hread
      generalize Connect env w = res at hread hc hcc
      obtain ⟨r1, r2⟩ := res
      simp only at hc hcc
      subst hc
      simp [hcc] at hread
    | some c =>
      rw [ReadJSON_of_Connect_ok v hc hcc] at hread
      simp only [Except.ok.injEq, Prod.mk.injEq] at hread
      rw [← hread.2]
      refine ⟨fun _ => ?_, ?_, ?_⟩
      · show (Connect env w).2.sock.conn ≠ none
        rw [hcc]; simp
      · show (Connect env w).2.sock.stopListening = w.sock.stopListening
        cases hk : w.sock.connected with
        | true => rw [Connect_of_connected hk]
        | false =>
          cases hd : env.newSocket w.trace w.sock.url with
          | error e => rw [Connect_of_dial_error hk hd] at hc; cases hc
          | ok c2 => rw [Connect_of_dial_ok hk hd]
      · show readCount ((Connect env w).2.trace ++ [Effect.connRead c]) ≤ _
        rw [readCount_append]
        have hr : readCount (Connect env w).2.trace = readCount w.trace := by
          cases hk : w.sock.connected with
          | true => rw [Connect_of_connected hk]
          | false =>
            cases hd : env.newSocket w.trace w.sock.url with
            | error e => rw [Connect_of_dial_error hk hd] at hc; cases hc
            | ok c2 => rw [Connect_of_dial_ok hk hd]; simp [readCount, List.countP_append]
        rw [hr]
        simp [readCount]

theorem withUnknownError_of_none {r : Response} (h : r.Error = none) :
    withUnknownError r = { r with Error := some unknownError } := by
  simp [withUnknownError, h, unknownError]

theorem withUnknownError_of_some {r : Response} {e : Error} (h : r.Error = some e) :
    withUnknownError r = r := by
  simp [withUnknownError, h]

/-- For a decoded envelope with no positive id and an empty method the
iteration runs `handleUnknown`; the socket (stop flag, command registry,
handler registry) is as before and no listener is started. The envelope
handed over carries an error: the one with message "Unknown response from
web socket" when the frame had none, the frame's own otherwise. After a read
without error the iteration leaves the stop flag as it was. -/
theorem malformed_envelope (w : World) (r : Response) (hid : r.ID ≤ 0) (hm : r.Method = "") :
    dispatch w r = handleUnknown w (withUnknownError r) ∧
    (dispatch w r).sock = w.sock ∧
    handled (dispatch w r).trace = handled w.trace ∧
    (withUnknownError r).Error ≠ none ∧
    (r.Error = none → (withUnknownError r).Error = some unknownError) ∧
    (∀ e, r.Error = some e → (withUnknownError r).Error = some e) ∧
    ∀ env w0,
      ReadJSON env w0 (some Response.zero) = .ok ((some r, none), w) →
      listenIter env w0 = .ok (none, dispatch w r) ∧
      (dispatch w r).sock.stopListening = w0.sock.stopListening := by
  have hd : dispatch w r = handleUnknown w (withUnknownError r) := by
    simp [dispatch, route_of_malformed hid hm]
  obtain ⟨k1, _, k3⟩ := handleUnknown_keeps w (withUnknownError r)
  refine ⟨hd, ?_, ?_, ?_, ?_, ?_, ?_⟩
  · rw [hd]; exact k1
  · rw [hd]; exact k3
  · cases he : r.Error with
    | none => rw [withUnknownError_of_none he]; simp
    | some e => rw [withUnknownError_of_some he, he]; simp
  · intro he
    rw [withUnknownError_of_none he]
  · intro e he
    rw [withUnknownError_of_some he, he]
  · intro env w0 hread
    refine ⟨?_, ?_⟩
    · have := listenIter_of_read hread
      simpa using this
    · rw [hd, k1]
      exact (ReadJSON_has_channel hread).2.1

theorem malformed_envelope_witness :
    Response.zero.ID ≤ 0 ∧ Response.zero.Method = "" ∧
    dispatch connectedWorldZero Response.zero =
      handleUnknown connectedWorldZero (withUnknownError Response.zero) ∧
    (dispatch connectedWorldZero Response.zero).sock = connectedWorldZero.sock :=
  ⟨by decide, by decide,
   (malformed_envelope connectedWorldZero Response.zero (by decide) (by decide)).1,
   (malformed_envelope connectedWorldZero Response.zero (by decide) (by decide)).2.1⟩

/-- C30: when the read of an iteration fails with `e` and leaves the
envelope empty, the iteration sets the stop flag and still runs
`handleUnknown` on the empty envelope with the synthesised error: a command
registered under id 0 gets `Respond` with that envelope, once, and stays
registered; with no such command nothing else happens. -/
theorem failed_read_dispatches_empty (env : Env) (w wr : World) (e : String)
    (hread : ReadJSON env w (some Response.zero) = .ok ((some Response.zero, some e), wr)) :
    route Response.zero = Route.unknown ∧
    withUnknownError Response.zero = { Response.zero with Error := some unknownError } ∧
    listenIter env w =
      .ok (some e, handleUnknown (Stop wr) (withUnknownError Response.zero)) ∧
    (handleUnknown (Stop wr) (withUnknownError Response.zero)).sock = (Stop wr).sock ∧
    (∀ c, wr.sock.commands.Get 0 = some c →
      (handleUnknown (Stop wr) (withUnknownError Response.zero)).trace =
        wr.trace ++ [Effect.respond c { Response.zero with Error := some unknownError }] ∧
      (handleUnknown (Stop wr) (withUnknownError Response.zero)).sock.commands.Get 0 =
        some c) ∧
    (wr.sock.commands.Get 0 = none →
      handleUnknown (Stop wr) (withUnknownError Response.zero) = Stop wr) := by
  have hu : withUnknownError Response.zero =
      { Response.zero with Error := some unknownError } := withUnknownError_of_none rfl
  have hi := listenIter_of_read hread
  simp only [Option.isSome_some, if_true] at hi
  have hd : dispatch (Stop wr) Response.zero =
      handleUnknown (Stop wr) (withUnknownError Response.zero) := by
    simp [dispatch, route_of_malformed (r := Response.zero) (le_refl _) rfl]
  rw [hd] at hi
  refine ⟨route_of_malformed (le_refl _) rfl, hu, hi,
    (handleUnknown_keeps _ _).1, ?_, ?_⟩
  · intro c hc
    have hc2 : (Stop wr).sock.commands.Get 0 = some c := hc
    rw [handleUnknown_of_some hc2, hu]
    exact ⟨rfl, hc⟩
  · intro hn
    have hn2 : (Stop wr).sock.commands.Get 0 = none := hn
    exact handleUnknown_of_none hn2

theorem failed_read_dispatches_empty_witness :
    ReadJSON (envReads 0) connectedWorldZero (some Response.zero) =
      .ok ((some Response.zero, some "EOF"), connectedWorldZero.emit (Effect.connRead 1)) ∧
    listenIter (envReads 0) connectedWorldZero =
      .ok (some "EOF",
        handleUnknown (Stop (connectedWorldZero.emit (Effect.connRead 1)))
          (withUnknownError Response.zero)) :=
  ⟨rfl,
   (failed_read_dispatches_empty (envReads 0) connectedWorldZero
      (connectedWorldZero.emit (Effect.connRead 1)) "EOF" rfl).2.2.1⟩

theorem Disconnect_returns {env : Env} {w : World}
    (hinv : w.sock.connected = true → w.sock.conn ≠ none) :
    ∃ res w2, Disconnect env w = .ok (res, w2) ∧ Connected w2 = false ∧
      readCount w2.trace = readCount w.trace := by
  cases hc : w.sock.connected with
  | false =>
    refine ⟨some "Could not disconnect (no connection exists)", w, ?_, hc, rfl⟩
    simp [Disconnect, hc]
  | true =>
    cases hconn : w.sock.conn with
    | none => exact absurd hconn (hinv hc)
    | some c =>
      refine ⟨_, _, Disconnect_of_connected hc hconn, rfl, ?_⟩
      simp [readCount, List.countP_append]

theorem Listen_of_loop {env : Env} {w0 wc w3 w4 : World} {fuel : Nat}
    {err res : Option String}
    (hconn : Connect env w0 = (none, wc))
    (hloop : listenLoop env fuel { wc with sock := { wc.sock with stopListening := false } } =
      .ok (err, w3))
    (hdisc : Disconnect env w3 = .ok (res, w4)) :
    Listen env fuel w0 = .ok (err.map (fun e => "socket read failed: " ++ e), w4) := by
  simp [Listen, hconn, hloop, hdisc]

/-- C24: when the read of an iteration fails with `e` (leaving the envelope
`r` behind `response`), the iteration sets the stop flag, the loop ends with that iteration (no further read), the
deferred `Disconnect` returns and leaves `Connected()` false without another
read, and a `Listen` whose loop ended so returns the error
"socket read failed: e". -/
theorem read_failure_stops (env : Env) (w wr : World) (r : Response) (e : String)
    (fuel : Nat)
    (hread : ReadJSON env w (some Response.zero) = .ok ((some r, some e), wr)) :
    listenIter env w = .ok (some e, dispatch (Stop wr) r) ∧
    (dispatch (Stop wr) r).sock.stopListening = true ∧
    listenLoop env (fuel + 1) w = .ok (some e, dispatch (Stop wr) r) ∧
    readCount (dispatch (Stop wr) r).trace = readCount wr.trace ∧
    ∃ res w2,
      Disconnect env (dispatch (Stop wr) r) = .ok (res, w2) ∧
      Connected w2 = false ∧
      readCount w2.trace = readCount wr.trace ∧
      ∀ w0 wc fuel0,
        Connect env w0 = (none, wc) →
        listenLoop env fuel0 { wc with sock := { wc.sock with stopListening := false } } =
          .ok (some e, dispatch (Stop wr) r) →
        Listen env fuel0 w0 = .ok (some ("socket read failed: " ++ e), w2) := by
  have hi := listenIter_of_read hread
  simp only [Option.isSome_some, if_true] at hi
  obtain ⟨d1, d2, d3, _, d5⟩ := dispatch_keeps (Stop wr) r
  have hstop : (dispatch (Stop wr) r).sock.stopListening = true := by
    rw [d1]; rfl
  have hinv : (dispatch (Stop wr) r).sock.connected = true →
      (dispatch (Stop wr) r).sock.conn ≠ none := by
    rw [d2, d3]
    exact (ReadJSON_has_channel hread).1
  obtain ⟨res, w2, hd, hc, hr⟩ := @Disconnect_returns env _ hinv
  refine ⟨hi, hstop, listenLoop_of_stop fuel hi hstop, d5, res, w2, hd, hc, ?_, ?_⟩
  · rw [hr, d5]; rfl
  · intro w0 wc fuel0 hconn hloop
    exact Listen_of_loop hconn hloop hd

theorem read_failure_stops_witness :
    ReadJSON (envReads 0) connectedWorld (some Response.zero) =
      .ok ((some Response.zero, some "EOF"), connectedWorld.emit (Effect.connRead 1)) ∧
    listenLoop (envReads 0) (0 + 1) connectedWorld =
      .ok (some "EOF",
        dispatch (Stop (connectedWorld.emit (Effect.connRead 1))) Response.zero) :=
  ⟨rfl,
   (read_failure_stops (envReads 0) connectedWorld (connectedWorld.emit (Effect.connRead 1))
      Response.zero "EOF" 0 rfl).2.2.1⟩

theorem ReadJSON_returns (env : Env) (w : World) (v : Option Response)
    (hconn : w.sock.connected = true → w.sock.conn ≠ none) :
    ∃ x w1, ReadJSON env w v = .ok (x, w1) := by
  cases hc : (Connect env w).1 with
  | some e => exact ⟨_, _, ReadJSON_of_Connect_error v hc⟩
  | none =>
    cases hcc : (Connect env w).2.sock.conn with
    | none => exact absurd hcc (Connect_conn env w hconn hc)
    | some c => exact ⟨_, _, ReadJSON_of_Connect_ok v hc hcc⟩

/-- C25 at a concrete input: `Stop()` is called on the socket `New` built
before `Listen` has reached its loop; `Listen` then clears the flag and reads
three frames (two empty ones and the failing read that ends it), not at most
one. -/
theorem Stop_before_Listen_is_lost :
    (Stop (New Process.start "ws://localhost:9222").1).sock.stopListening = true ∧
    (Listen (envReads 2) 3 (Stop (New Process.start "ws://localhost:9222").1)).map
        (fun r => (readCount r.2.trace, r.2.sock.stopListening)) = .ok (3, true) ∧
    (listenLoop (envReads 2) 1 (Stop (New Process.start "ws://localhost:9222").1)).map
        (fun r => readCount r.2.trace) = .ok 1 :=
  ⟨rfl, rfl, rfl⟩

/-- With the stop flag set when an iteration of the loop begins, or set while
the iteration waits in its read, the iteration that decodes an envelope is
the last one: the loop reads at most one more frame and ends with the flag
still set. No handler changes the flag, and a read does not either; it is
`Listen` that clears it, once, before the loop. -/
theorem Stop_ends_loop (env : Env) (w : World) (fuel : Nat) :
    (∀ r err wr, ReadJSON env (Stop w) (some Response.zero) = .ok ((some r, err), wr) →
      listenLoop env (fuel + 1) (Stop w) =
        .ok (err, dispatch (if err.isSome then Stop wr else wr) r) ∧
      (dispatch (if err.isSome then Stop wr else wr) r).sock.stopListening = true ∧
      readCount (dispatch (if err.isSome then Stop wr else wr) r).trace ≤
        readCount w.trace + 1) ∧
    (∀ r err wr, ReadJSON env w (some Response.zero) = .ok ((some r, err), wr) →
      (dispatch (Stop wr) r).sock.stopListening = true ∧
      readCount (dispatch (Stop wr) r).trace ≤ readCount w.trace + 1) ∧
    (∀ w0 r, (dispatch w0 r).sock.stopListening = w0.sock.stopListening) ∧
    ∀ w0 v x w1, ReadJSON env w0 v = .ok (x, w1) →
      w1.sock.stopListening = w0.sock.stopListening := by
  refine ⟨?_, ?_, fun w0 r => (dispatch_keeps w0 r).1,
    fun w0 v x w1 h => (ReadJSON_has_channel h).2.1⟩
  · intro r err w1 hread
    obtain ⟨_, k2, k3⟩ := ReadJSON_has_channel hread
    have hi := listenIter_of_read hread
    have hflag : (if err.isSome then Stop w1 else w1).sock.stopListening = true := by
      split
      · rfl
      · rw [k2]; rfl
    have htr : (if err.isSome then Stop w1 else w1).trace = w1.trace := by
      split <;> rfl
    obtain ⟨d1, _, _, _, d5⟩ := dispatch_keeps (if err.isSome then Stop w1 else w1) r
    have hstop : (dispatch (if err.isSome then Stop w1 else w1) r).sock.stopListening = true := by
      rw [d1]; exact hflag
    refine ⟨listenLoop_of_stop fuel hi hstop, hstop, ?_⟩
    rw [d5, htr]
    exact k3
  · intro r err wr hread
    obtain ⟨_, _, k3⟩ := ReadJSON_has_channel hread
    obtain ⟨d1, _, _, _, d5⟩ := dispatch_keeps (Stop wr) r
    refine ⟨by rw [d1]; rfl, ?_⟩
    rw [d5]
    exact k3

/-! ## Registration order and fan-out order -/

theorem EventHandlerMap.Get_Add (m : EventHandlerMap) (h : EventHandler) (name : String) :
    (m.Add h).Get name =
      if name = h.Name then some ((m.Get h.Name).getD [] ++ [h]) else m.Get name := by
  unfold EventHandlerMap.Add
  by_cases hn : name = h.Name
  · subst hn
    cases hg : m.Get h.Name with
    | none => simp [EventHandlerMap.Get_Set_name]
    | some hs => simp [EventHandlerMap.Get_Set_name]
  · cases hg : m.Get h.Name with
    | none => simp [hn, EventHandlerMap.Get_Set_other _ _ hn]
    | some hs => simp [hn, EventHandlerMap.Get_Set_other _ _ hn]

theorem EventHandlerMap.getD_Add (m : EventHandlerMap) (h : EventHandler) (name : String) :
    ((m.Add h).Get name).getD [] =
      (m.Get name).getD [] ++ (if h.Name = name then [h] else []) := by
  rw [EventHandlerMap.Get_Add]
  by_cases hn : name = h.Name
  · subst hn; simp
  · have hn2 : ¬ h.Name = name := fun x => hn x.symm
    simp [hn, hn2]

theorem EventHandlerMap.getD_foldl_Add (others : List EventHandler) (m : EventHandlerMap)
    (name : String) :
    ((others.foldl EventHandlerMap.Add m).Get name).getD [] =
      (m.Get name).getD [] ++ others.filter (fun h => h.Name = name) := by
  induction others generalizing m with
  | nil => simp
  | cons x xs ih =>
    rw [List.foldl_cons, ih, EventHandlerMap.getD_Add]
    by_cases hx : x.Name = name
    · simp [hx, List.filter_cons]
    · simp [hx, List.filter_cons]

theorem foldl_AddEventHandler (others : List EventHandler) (w : World) :
    (others.foldl AddEventHandler w).sock.handlers =
      others.foldl EventHandlerMap.Add w.sock.handlers := by
  induction others generalizing w with
  | nil => rfl
  | cons x xs ih => rw [List.foldl_cons, ih]; rfl

theorem foldl_handleEvent_sock (events : List Response) (w : World) :
    (events.foldl handleEvent w).sock = w.sock := by
  induction events generalizing w with
  | nil => rfl
  | cons x xs ih => rw [List.foldl_cons, ih]; exact (handleEvent_keeps w x).1

theorem handleEvent_trace (w : World) (r : Response) :
    (handleEvent w r).trace =
      w.trace ++
        ((w.sock.handlers.Get r.Method).getD []).map (fun h => Effect.handle h r) := by
  unfold handleEvent
  cases w.sock.handlers.Get r.Method <;> simp

/-- C21, amended: when `L1` and then, after any other registrations, `L2`
are registered for the same method name, the collection for that name holds
`L1` before `L2`, and for every event of that name, whatever events were
handled in between, `handleEvent` executes `go event.Handle(response)` for
`L1` before it does for `L2`. -/
theorem fanout_order (w : World) (L1 L2 : EventHandler) (others : List EventHandler)
    (events : List Response) (r : Response)
    (hname : L2.Name = L1.Name) (hr : r.Method = L1.Name) :
    ∃ a b,
      (AddEventHandler (others.foldl AddEventHandler (AddEventHandler w L1)) L2).sock.handlers.Get
          L1.Name = some (a ++ L1 :: b ++ [L2]) ∧
      (handleEvent
          (events.foldl handleEvent
            (AddEventHandler (others.foldl AddEventHandler (AddEventHandler w L1)) L2)) r).trace =
        (events.foldl handleEvent
            (AddEventHandler (others.foldl AddEventHandler (AddEventHandler w L1)) L2)).trace ++
          a.map (fun h => Effect.handle h r) ++ [Effect.handle L1 r] ++
          b.map (fun h => Effect.handle h r) ++ [Effect.handle L2 r] := by
  have hget :
      (AddEventHandler (others.foldl AddEventHandler (AddEventHandler w L1)) L2).sock.handlers.Get
          L1.Name =
        some ((w.sock.handlers.Get L1.Name).getD [] ++ L1 ::
          others.filter (fun h => h.Name = L1.Name) ++ [L2]) := by
    show ((others.foldl AddEventHandler (AddEventHandler w L1)).sock.handlers.Add L2).Get
        L1.Name = _
    rw [EventHandlerMap.Get_Add, if_pos hname.symm, hname, foldl_AddEventHandler,
      EventHandlerMap.getD_foldl_Add]
    show some ((((w.sock.handlers.Add L1).Get L1.Name).getD [] ++ _) ++ [L2]) = _
    rw [EventHandlerMap.getD_Add]
    simp
  refine ⟨_, _, hget, ?_⟩
  rw [handleEvent_trace, foldl_handleEvent_sock, hr, hget]
  simp

theorem fanout_order_witness :
    onChanged2.Name = onChanged1.Name ∧ (fooChanged "x").Method = onChanged1.Name ∧
    ∃ a b,
      (AddEventHandler ([onAdded].foldl AddEventHandler
          (AddEventHandler (worldHandlers []) onChanged1)) onChanged2).sock.handlers.Get
          onChanged1.Name = some (a ++ onChanged1 :: b ++ [onChanged2]) :=
  ⟨by decide, by decide,
   (fanout_order (worldHandlers []) onChanged1 onChanged2 [onAdded] [] (fooChanged "x")
      (by decide) (by decide)).imp fun _ h => h.imp fun _ h => h.1⟩

/-! ## Lock discipline -/

/-- C26 on the code: `Connect`, `NextCommandID`, `CurCommandID` and
`NextSocketID` touch their fields with the guarding mutex held; `Connected`,
`Disconnect`, `ReadJSON`/`WriteJSON`, `Stop` and `Listen` read or write
`connected`, `conn` and `stopListening` with no mutex held. -/
theorem lock_discipline_broken :
    unguarded (opsConnect true true) = [] ∧
    unguarded (opsConnect false true) = [] ∧
    unguarded (opsConnect false false) = [] ∧
    unguarded opsNextCommandID = [] ∧
    unguarded opsCurCommandID = [] ∧
    unguarded opsNextSocketID = [] ∧
    unguarded opsConnected = [Field.connected] ∧
    unguarded (opsDisconnect false) = [Field.connected] ∧
    unguarded (opsDisconnect true) =
      [Field.connected, Field.conn, Field.conn, Field.connected] ∧
    unguarded (opsReadWriteJSON true true) = [Field.conn] ∧
    unguarded (opsReadWriteJSON false true) = [Field.conn] ∧
    unguarded opsStop = [Field.stopListening] ∧
    unguarded opsListen =
      [Field.stopListening, Field.conn, Field.stopListening, Field.stopListening,
        Field.connected, Field.conn, Field.conn, Field.connected] := by
  decide

/-! ## Domain wrappers -/

/-- C27: a result-returning wrapper (`Database.ExecuteSQL`,
`Storage.GetUsageAndQuota` and the others share the body) returns the
command's error with the zero-valued result when the error is non-nil after
`SendCommand`, whatever `json.Marshal` and `json.Unmarshal` would do; with a
nil error and no result it returns the zero-valued result and nil. -/
theorem resultWrapper_error_or_empty {R : Type} (env : WrapperEnv R)
    (method params : String) (zero : R) :
    (∀ e,
      (env.SendCommand
        { Method := method, Params := params, Err := none, Result := none }).Err = some e →
      resultWrapper env method params zero = (zero, some e)) ∧
    ((env.SendCommand
        { Method := method, Params := params, Err := none, Result := none }).Err = none →
      (env.SendCommand
        { Method := method, Params := params, Err := none, Result := none }).Result = none →
      resultWrapper env method params zero = (zero, none)) ∧
    Database.ExecuteSQL env params zero = resultWrapper env "Database.executeSQL" params zero ∧
    Storage.GetUsageAndQuota env params zero =
      resultWrapper env "storage.getUsageAndQuota" params zero := by
  refine ⟨?_, ?_, rfl, rfl⟩
  · intro e he
    simp [resultWrapper, he]
  · intro he hr
    simp [resultWrapper, he, hr]

theorem resultWrapper_error_or_empty_witness :
    Database.ExecuteSQL wrapperEnvFailing "q" 0 = (0, some "timeout") ∧
    Database.ExecuteSQL wrapperEnvEmpty "q" 0 = (0, none) :=
  ⟨((resultWrapper_error_or_empty wrapperEnvFailing "Database.executeSQL" "q" 0).1
      "timeout" rfl),
   ((resultWrapper_error_or_empty wrapperEnvEmpty "Database.executeSQL" "q" 0).2.1 rfl rfl)⟩

/-- C28 on the code: of the 104 wrappers of `Database`, `DOM`, `Log`,
`Overlay`, `ServiceWorker` and `Storage`, the six command wrappers of
`Storage` pass on a method name that begins with the lower-case `storage.`;
every other wrapper, the four event wrappers of `Storage` included, passes
on its domain name, a dot and an action. -/
theorem storage_commands_lower_case :
    allWrappers.length = 104 ∧
    (allWrappers.filter (fun w => !w.conforms)).map (fun w => (w.domain, w.name, w.method)) =
      [("Storage", "ClearDataForOrigin", "storage.clearDataForOrigin"),
       ("Storage", "GetUsageAndQuota", "storage.getUsageAndQuota"),
       ("Storage", "TrackCacheStorageForOrigin", "storage.trackCacheStorageForOrigin"),
       ("Storage", "TrackIndexedDBForOrigin", "storage.trackIndexedDBForOrigin"),
       ("Storage", "UntrackCacheStorageForOrigin", "storage.untrackCacheStorageForOrigin"),
       ("Storage", "UntrackIndexedDBForOrigin", "storage.untrackIndexedDBForOrigin")] ∧
    ((storageWrappers.filter (fun w => w.isEvent)).all (fun w => w.conforms)) = true := by
  decide

/-! ## DOMBreakpointType -/

/-- C29: `DOMBreakpointType.String` returns "subtree-modified" for 0,
"attribute-modified" for 1 and "node-removed" for 2, three different
strings; for every other value it panics; so it returns a string exactly on
0, 1 and 2 and returns different strings for different values. -/
theorem DOMBreakpointType_String_spec :
    DOMBreakpointType.String 0 = .ok "subtree-modified" ∧
    DOMBreakpointType.String 1 = .ok "attribute-modified" ∧
    DOMBreakpointType.String 2 = .ok "node-removed" ∧
    "subtree-modified" ≠ "attribute-modified" ∧
    "subtree-modified" ≠ "node-removed" ∧
    "attribute-modified" ≠ "node-removed" ∧
    (∀ a : Int, (a < 0 ∨ 2 < a) →
      DOMBreakpointType.String a = .error ("Invalid DOMBreakpointType " ++ toString a)) ∧
    (∀ (a : Int) (s : String), DOMBreakpointType.String a = .ok s → a = 0 ∨ a = 1 ∨ a = 2) ∧
    ∀ (a b : Int) (s : String),
      DOMBreakpointType.String a = .ok s → DOMBreakpointType.String b = .ok s → a = b := by
  have hpanic : ∀ a : Int, ¬ (a = 0 ∨ a = 1 ∨ a = 2) →
      DOMBreakpointType.String a = .error ("Invalid DOMBreakpointType " ++ toString a) := by
    intro a ha
    simp only [not_or] at ha
    simp [DOMBreakpointType.String, ha.1, ha.2.1, ha.2.2]
  have hdef : ∀ (a : Int) (s : String), DOMBreakpointType.String a = .ok s →
      a = 0 ∨ a = 1 ∨ a = 2 := by
    intro a s hs
    by_contra hc
    rw [hpanic a hc] at hs
    cases hs
  refine ⟨rfl, rfl, rfl, by decide, by decide, by decide, ?_, hdef, ?_⟩
  · intro a ha
    apply hpanic
    omega
  · intro a b s ha hb
    rcases hdef a s ha with h | h | h <;> rcases hdef b s hb with k | k | k <;>
      subst h <;> subst k <;>
      first
        | rfl
        | (exfalso
           have h1 := ha.trans hb.symm
           simp [DOMBreakpointType.String] at h1)

/-! ## Frames that leave no envelope -/

/-- C23 at a concrete input: the frame `null` is read without error and
leaves `response` nil; the iteration of `Listen` then dereferences it in
`response.ID > 0` and panics, on a connected socket and in `Listen` on the
socket `New` built, instead of handing an envelope to `handleUnknown` and
going on. -/
theorem null_frame_panics :
    ReadJSON envNull connectedWorld (some Response.zero) =
      .ok ((none, none), connectedWorld.emit (Effect.connRead 1)) ∧
    listenIter envNull connectedWorld = .error Fault.nilDeref ∧
    Listen envNull 5 (New Process.start "ws://localhost:9222").1 = .error Fault.nilDeref :=
  ⟨rfl, rfl, rfl⟩

/-! ## Listener bodies -/

theorem runBodies_panic (panics : EventHandler → Response → Bool)
    (order : List (EventHandler × Response))
    (h : ∃ x ∈ order, panics x.1 x.2 = true) :
    (runBodies panics order).2 = some Fault.handlerPanic := by
  induction order with
  | nil => obtain ⟨x, hx, _⟩ := h; cases hx
  | cons y ys ih =>
    by_cases hy : panics y.1 y.2 = true
    · simp [runBodies, hy]
    · obtain ⟨x, hx, hp⟩ := h
      have hx2 : x ∈ ys := by
        rcases List.mem_cons.mp hx with hxy | hxy
        · subst hxy; exact absurd hp hy
        · exact hxy
      simp [runBodies, hy, ih ⟨x, hx2, hp⟩]

/-- C22 at a concrete input: with `onChanged1` and `onChanged2` registered
for `Foo.changed` and `Handle` of `onChanged1` panicking, `handleEvent`
starts both; run in that order, the body of `onChanged2` never runs and the
process ends with the panic, so the loop does not read the next frame; with
`onChanged2` first its body returns and the process ends all the same. With
no panic the same loop reads three frames. -/
theorem listener_panic_ends_process :
    handled (handleEvent connectedWorldListeners (fooChanged "x")).trace =
      [(onChanged1, fooChanged "x"), (onChanged2, fooChanged "x")] ∧
    runBodies panicsFirst [(onChanged1, fooChanged "x"), (onChanged2, fooChanged "x")] =
      ([], some Fault.handlerPanic) ∧
    runBodies panicsFirst [(onChanged2, fooChanged "x"), (onChanged1, fooChanged "x")] =
      ([(onChanged2, fooChanged "x")], some Fault.handlerPanic) ∧
    listenLoopBodies panicsFirst (envEvents 2) 3 connectedWorldListeners =
      .error Fault.handlerPanic ∧
    (listenLoopBodies (fun _ _ => false) (envEvents 2) 3 connectedWorldListeners).map
        (fun r => readCount r.2.trace) = .ok 3 :=
  ⟨rfl, rfl, rfl, rfl, rfl⟩

/-- C21, as stated, fails: with `onChanged1` registered before `onChanged2`
for `Foo.changed`, `handleEvent` starts `Handle` of `onChanged1` first, and
the two bodies may run with `onChanged2` first. -/
theorem fanout_bodies_unordered :
    handled
        (handleEvent
          (AddEventHandler (AddEventHandler (worldHandlers []) onChanged1) onChanged2)
          (fooChanged "x")).trace =
      [(onChanged1, fooChanged "x"), (onChanged2, fooChanged "x")] ∧
    mayRunAs
      (handled
        (handleEvent
          (AddEventHandler (AddEventHandler (worldHandlers []) onChanged1) onChanged2)
          (fooChanged "x")).trace)
      [(onChanged2, fooChanged "x"), (onChanged1, fooChanged "x")] :=
  ⟨rfl, List.Perm.swap _ _ _⟩

end GoChrome
